import Mathlib

/-!
# wimproved.vim : window style controller

A shallow embedding of `src/wimproved.c`.  The C code is a sequence of calls into
the Win32 window manager, so the embedding consists of two layers:

* a small executable model of the window manager (`Sys`, `GetWindowLongPtr`,
  `SetWindowLongPtr`, ...), following the documented contract of each call, with
  fault injection so that every call can fail;
* the functions of `wimproved.c`, translated line by line as state-passing
  functions `Sys → result × Sys`.

Machine integers are `Nat`/`Int`; the `DWORD` narrowing is an explicit `% 2^32`.
-/

namespace Wimproved

/-! ## The window manager model -/

/-- Window handles; `0` is the null handle. -/
abbrev HWND := Nat

/-- The null handle. -/
def NULL : HWND := 0

/-- Selector of `GetWindowLongPtr` / `SetWindowLongPtr`. -/
inductive Index where
  | GWL_STYLE
  | GWL_EXSTYLE
  deriving DecidableEq, Repr

/-- The window-manager entry points that can be made to fail. -/
inductive Api where
  | GetWindowLongPtr (i : Index)
  | SetWindowLongPtr (i : Index)
  | SetClassLongPtr
  | SetLayeredWindowAttributes
  | SetWindowPos
  | CreateSolidBrush
  deriving DecidableEq, Repr

/-- A record of one mutating call issued to the window manager, kept whether or
not the call succeeded. -/
inductive Call where
  | SetWindowLongPtr (hwnd : HWND) (i : Index) (value : Nat)
  | SetClassLongPtr (hwnd : HWND) (brush : Nat)
  | SetLayeredWindowAttributes (hwnd : HWND) (alpha : Nat)
  | SetWindowPos (hwnd : HWND)
  deriving DecidableEq, Repr

/-- The live window objects.  Handles `1 .. count` exist, and that is also the
enumeration order.  `parent h = 0` marks a top-level window. -/
structure Desktop where
  /-- Number of windows. -/
  count : Nat
  /-- Parent handle, `0` for a top-level window. -/
  parent : HWND → HWND
  /-- Owning process as reported by `GetWindowThreadProcessId`; `none` when that call
  returns zero. -/
  owner : HWND → Option Nat
  /-- Class name as read by `GetClassNameA`; `none` when that call returns zero. -/
  className : HWND → Option String
  /-- Basic style mask (`GWL_STYLE`). -/
  style : HWND → Nat
  /-- Extended style mask (`GWL_EXSTYLE`). -/
  exstyle : HWND → Nat
  /-- Class background brush (`GCLP_HBRBACKGROUND`). -/
  background : HWND → Nat
  /-- Alpha level installed by `SetLayeredWindowAttributes`, if any. -/
  alpha : HWND → Option Nat
  /-- Number of frame-changed repaints performed by `SetWindowPos`. -/
  redraws : HWND → Nat

/-- The whole environment of one call into the library. -/
structure Sys where
  /-- Value of `GetCurrentProcessId`. -/
  pid : Nat
  /-- The window objects. -/
  desk : Desktop
  /-- Fault injection: `faults a h = some k` makes call `a` on handle `h` fail with
  last-error code `k + 1` (the code of a failure is never zero). -/
  faults : Api → HWND → Option Nat
  /-- The thread's last-error indicator. -/
  lastError : Nat
  /-- Colours of the brushes created so far; brush handle `k + 1` is entry `k`.
  Brushes are never released. -/
  brushes : List Nat
  /-- Mutating window-manager calls issued so far, oldest first. -/
  log : List Call
  /-- Message boxes shown so far: source line and, for the second box, the
  system error code. -/
  dialogs : List (Nat × Option Nat)

/-- A narrowing conversion to a 32-bit unsigned value. -/
def DWORD (n : Nat) : Nat := n % 4294967296

/-- A narrowing conversion to a byte. -/
def BYTE (n : Int) : Nat := (n % 256).toNat

/-! The style flags and the error code below carry the values of the platform
headers (WinUser.h, WinError.h), which `wimproved.c` includes. -/

/-- Style flag of a visible window. -/
def WS_VISIBLE : Nat := 0x10000000

/-- Style flag of a title bar. -/
def WS_CAPTION : Nat := 0x00C00000

/-- Style flag of a sizing border. -/
def WS_THICKFRAME : Nat := 0x00040000

/-- Style flag of a minimize button. -/
def WS_MINIMIZEBOX : Nat := 0x00020000

/-- Style flag of a maximize button. -/
def WS_MAXIMIZEBOX : Nat := 0x00010000

/-- Extended style flag of a layered window. -/
def WS_EX_LAYERED : Nat := 0x00080000

/-- Extended style flag of a sunken border. -/
def WS_EX_CLIENTEDGE : Nat := 0x00000200

/-- Error code of a call on a handle that is not a window. -/
def ERROR_INVALID_WINDOW_HANDLE : Nat := 1400

/-- The outcome the model prescribes for call `a` on `hwnd`: `some e` when it
fails with code `e`.  Calls on a handle that does not exist always fail. -/
def fault (s : Sys) (a : Api) (hwnd : HWND) : Option Nat :=
  if hwnd = 0 ∨ s.desk.count < hwnd then some ERROR_INVALID_WINDOW_HANDLE
  else (s.faults a hwnd).map (· + 1)

/-- Reads the last-error indicator. -/
def GetLastError (s : Sys) : Nat := s.lastError

/-- Overwrites the last-error indicator. -/
def SetLastError (e : Nat) (s : Sys) : Sys := { s with lastError := e }

/-- The id of the calling process. -/
def GetCurrentProcessId (s : Sys) : Nat := s.pid

/-- A top-level window is visible exactly when its `WS_VISIBLE` style bit is
set (the call is only used on top-level windows). -/
def IsWindowVisible (s : Sys) (hwnd : HWND) : Bool :=
  s.desk.style hwnd &&& WS_VISIBLE != 0

/-- The owning process id, or `none` when the call returns zero. -/
def GetWindowThreadProcessId (s : Sys) (hwnd : HWND) : Option Nat :=
  s.desk.owner hwnd

/-- The class name, or `none` when the call returns zero. -/
def GetClassNameA (s : Sys) (hwnd : HWND) : Option String :=
  s.desk.className hwnd

/-- All handles in enumeration order. -/
def handles (s : Sys) : List HWND := (List.range s.desk.count).map (· + 1)

/-- Calls `callback` on each top-level window in turn until it stores a
handle and asks to stop; the result is the stored handle. -/
def EnumWindows (s : Sys) (callback : HWND → Option HWND) : Option HWND :=
  ((handles s).filter (fun h => s.desk.parent h = 0)).findSome? callback

/-- Calls `callback` on each child of `hwnd` in turn until it stores a handle
and asks to stop.  The children are the windows whose parent is `hwnd`. -/
def EnumChildWindows (s : Sys) (hwnd : HWND) (callback : HWND → Option HWND) :
    Option HWND :=
  ((handles s).filter (fun h => s.desk.parent h = hwnd)).findSome? callback

/-- Reads a style mask.  On failure returns zero and sets the last error; on
success the last error is left as it was. -/
def GetWindowLongPtr (hwnd : HWND) (i : Index) (s : Sys) : Nat × Sys :=
  match fault s (.GetWindowLongPtr i) hwnd with
  | some e => (0, { s with lastError := e })
  | none =>
    match i with
    | .GWL_STYLE => (s.desk.style hwnd, s)
    | .GWL_EXSTYLE => (s.desk.exstyle hwnd, s)

/-- Replaces a style mask and returns the previous one.  On failure returns
zero, changes nothing and sets the last error; on success the last error is
left as it was. -/
def SetWindowLongPtr (hwnd : HWND) (i : Index) (value : Nat) (s : Sys) : Nat × Sys :=
  let s := { s with log := s.log ++ [Call.SetWindowLongPtr hwnd i value] }
  match fault s (.SetWindowLongPtr i) hwnd with
  | some e => (0, { s with lastError := e })
  | none =>
    match i with
    | .GWL_STYLE =>
      (s.desk.style hwnd,
        { s with desk := { s.desk with style := Function.update s.desk.style hwnd value } })
    | .GWL_EXSTYLE =>
      (s.desk.exstyle hwnd,
        { s with desk := { s.desk with exstyle := Function.update s.desk.exstyle hwnd value } })

/-- Replaces the class background brush (`GCLP_HBRBACKGROUND`) and returns the
previous one; zero and a last error on failure. -/
def SetClassLongPtr (hwnd : HWND) (brush : Nat) (s : Sys) : Nat × Sys :=
  let s := { s with log := s.log ++ [Call.SetClassLongPtr hwnd brush] }
  match fault s .SetClassLongPtr hwnd with
  | some e => (0, { s with lastError := e })
  | none =>
    (s.desk.background hwnd,
      { s with desk := { s.desk with
          background := Function.update s.desk.background hwnd brush } })

/-- Installs the alpha level (`LWA_ALPHA`); returns non-zero on success. -/
def SetLayeredWindowAttributes (hwnd : HWND) (alpha : Nat) (s : Sys) : Nat × Sys :=
  let s := { s with log := s.log ++ [Call.SetLayeredWindowAttributes hwnd alpha] }
  match fault s .SetLayeredWindowAttributes hwnd with
  | some e => (0, { s with lastError := e })
  | none =>
    (1, { s with desk := { s.desk with alpha := Function.update s.desk.alpha hwnd (some alpha) } })

/-- The call of `force_redraw`: a frame-changed repaint without move or resize;
returns non-zero on success. -/
def SetWindowPos (hwnd : HWND) (s : Sys) : Nat × Sys :=
  let s := { s with log := s.log ++ [Call.SetWindowPos hwnd] }
  match fault s .SetWindowPos hwnd with
  | some e => (0, { s with lastError := e })
  | none =>
    (1, { s with desk := { s.desk with
          redraws := Function.update s.desk.redraws hwnd (s.desk.redraws hwnd + 1) } })

/-- Creates a brush of the given colour; the null handle on failure. -/
def CreateSolidBrush (color : Nat) (s : Sys) : Nat × Sys :=
  match s.faults .CreateSolidBrush 0 with
  | some _ => (NULL, s)
  | none => (s.brushes.length + 1, { s with brushes := s.brushes ++ [color] })

/-- The `RGB` packing of WinGDI.h. -/
def RGB (r g b : Nat) : Nat := r ||| (g <<< 8) ||| (b <<< 16)

/-! ## The program -/

/-- this is `display_error` (lines 29-43): one message box with the source line, and a
second one with the system error when the last error is non-zero. -/
def display_error (line : Nat) (s : Sys) : Sys :=
  let last_error := GetLastError s
  let s := { s with dialogs := s.dialogs ++ [(line, none)] }
  if last_error ≠ 0 then
    { s with dialogs := s.dialogs ++ [(line, some last_error)] }
  else s

/-- this is `enum_windows_proc` (lines 45-59): `some hwnd` stores the handle and stops the
enumeration, `none` continues. -/
def enum_windows_proc (s : Sys) (hwnd : HWND) : Option HWND :=
  if IsWindowVisible s hwnd then
    match GetWindowThreadProcessId s hwnd with
    | some process => if process = GetCurrentProcessId s then some hwnd else none
    | none => none
  else none

/-- this is `enum_child_windows_proc` (lines 61-74). -/
def enum_child_windows_proc (s : Sys) (hwnd : HWND) : Option HWND :=
  match GetClassNameA s hwnd with
  | none => none
  | some class_name => if class_name = "VimTextArea" then some hwnd else none

/-- this is `get_hwnd` (lines 76-81): the first visible top-level window of the
current process, or `NULL`. -/
def get_hwnd (s : Sys) : HWND :=
  (EnumWindows s (enum_windows_proc s)).getD NULL

/-- this is `get_textarea_hwnd` (lines 83-94): the first child of that window
whose class is `VimTextArea`, or `NULL`. -/
def get_textarea_hwnd (s : Sys) : HWND :=
  let hwnd := get_hwnd s
  if hwnd = NULL then NULL
  else (EnumChildWindows s hwnd (enum_child_windows_proc s)).getD NULL

/-- this is `force_redraw` (lines 96-99). -/
def force_redraw (hwnd : HWND) (s : Sys) : Nat × Sys :=
  SetWindowPos hwnd s

/-- The mask computed by both style mutators (lines 106-113 and 136-143):
`style |= flags` when the predicate is zero, `style &= ~flags` otherwise, on a
`DWORD`.  `flags` is the bit pattern of the `long` argument. -/
def adjusted (style flags : Nat) (predicate : Int) : Nat :=
  if predicate = 0 then DWORD (style ||| flags)
  else style &&& (4294967295 ^^^ flags)

/-- this is `adjust_exstyle_flags` (lines 101-129).  The result of the write at
line 121 is dropped; its check is commented out in the source. -/
def adjust_exstyle_flags (hwnd : HWND) (flags : Nat) (predicate : Int) (s : Sys) :
    Int × Sys :=
  let r := GetWindowLongPtr hwnd .GWL_EXSTYLE s
  let style := DWORD r.1
  if style ≠ 0 ∨ GetLastError r.2 = 0 then
    let style := adjusted style flags predicate
    let s1 := SetLastError 0 r.2
    if GetLastError s1 = 0 then
      let w := SetWindowLongPtr hwnd .GWL_EXSTYLE style s1
      (1, w.2)
    else (0, display_error 118 s1)
  else (0, display_error 104 r.2)

/-- this is `adjust_style_flags` (lines 131-155). -/
def adjust_style_flags (hwnd : HWND) (flags : Nat) (predicate : Int) (s : Sys) :
    Int × Sys :=
  let r := GetWindowLongPtr hwnd .GWL_STYLE s
  let style := DWORD r.1
  if style ≠ 0 ∨ GetLastError r.2 = 0 then
    let style := adjusted style flags predicate
    let s1 := SetLastError 0 r.2
    let w := SetWindowLongPtr hwnd .GWL_STYLE style s1
    if w.1 ≠ 0 ∨ GetLastError w.2 = 0 then (1, w.2)
    else (0, display_error 148 w.2)
  else (0, display_error 134 r.2)

/-- this is `set_alpha` (lines 157-173); `min` and `max` are the conditional
macros of the platform headers. -/
def set_alpha (arg : Int) (s : Sys) : Int × Sys :=
  let arg := if arg < 0xFF then arg else 0xFF
  let arg := if arg > 0x00 then arg else 0x00
  let hwnd := get_hwnd s
  if hwnd ≠ NULL then
    let a := adjust_exstyle_flags hwnd WS_EX_LAYERED (if arg ≠ 0xFF then 1 else 0) s
    if a.1 ≠ 0 then
      let l := SetLayeredWindowAttributes hwnd (BYTE arg) a.2
      if l.1 ≠ 0 then (1, l.2)
      else (0, display_error 167 l.2)
    else (0, display_error 166 a.2)
  else (0, display_error 163 s)

/-- this is `set_window_style` (lines 175-199).  `(arg >> 16) & 0xFF` is
`BYTE (arg / 65536)`; brush handles are taken to fit the `LONG` cast. -/
def set_window_style (is_clean_enabled : Int) (arg : Int) (s : Sys) : Int × Sys :=
  let color := RGB (BYTE (arg / 65536)) (BYTE (arg / 256)) (BYTE arg)
  let b := CreateSolidBrush color s
  let brush := b.1
  if brush ≠ NULL then
    let child := get_textarea_hwnd b.2
    if child ≠ NULL then
      let c := SetClassLongPtr child brush b.2
      if c.1 ≠ 0 ∨ GetLastError c.2 = 0 then
        let parent := get_hwnd c.2
        if parent ≠ NULL then
          let p := SetClassLongPtr parent brush c.2
          if p.1 ≠ 0 ∨ GetLastError p.2 = 0 then
            let a := adjust_exstyle_flags child WS_EX_CLIENTEDGE is_clean_enabled p.2
            if a.1 ≠ 0 then
              let f := force_redraw child a.2
              if f.1 ≠ 0 then (1, f.2)
              else (0, display_error 192 f.2)
            else (0, display_error 191 a.2)
          else (0, display_error 189 p.2)
        else (0, display_error 188 c.2)
      else (0, display_error 185 c.2)
    else (0, display_error 183 b.2)
  else (0, display_error 180 b.2)

/-- this is `set_fullscreen` (lines 201-215).  The results of the three calls
after the lookup are not inspected in the source. -/
def set_fullscreen (should_be_fullscreen : Int) (color : Int) (s : Sys) : Int × Sys :=
  let parent := get_hwnd s
  if parent ≠ NULL then
    let s1 := (set_window_style should_be_fullscreen color s).2
    let s2 := (adjust_style_flags parent
      (WS_CAPTION ||| WS_THICKFRAME ||| WS_MAXIMIZEBOX ||| WS_MINIMIZEBOX)
      should_be_fullscreen s1).2
    let s3 := (force_redraw parent s2).2
    (1, s3)
  else (0, display_error 204 s)

/-- this is `set_fullscreen_on` (lines 217-220). -/
def set_fullscreen_on (arg : Int) (s : Sys) : Int × Sys := set_fullscreen 1 arg s

/-- this is `set_fullscreen_off` (lines 222-225). -/
def set_fullscreen_off (arg : Int) (s : Sys) : Int × Sys := set_fullscreen 0 arg s

/-- this is `set_window_style_clean` (lines 227-230). -/
def set_window_style_clean (arg : Int) (s : Sys) : Int × Sys := set_window_style 1 arg s

/-- this is `set_window_style_default` (lines 232-235). -/
def set_window_style_default (arg : Int) (s : Sys) : Int × Sys := set_window_style 0 arg s

/-! ## Sample environments -/

/-- A desktop with an editor window (handle 1, visible, owned by process 7)
and its text area (handle 2). -/
def editorDesk (style exstyle1 exstyle2 bg : Nat) : Desktop where
  count := 2
  parent := fun h => if h = 2 then 1 else 0
  owner := fun _ => some 7
  className := fun h => if h = 2 then some "VimTextArea" else some "Vim"
  style := fun h => if h = 1 then style else 0x50000000
  exstyle := fun h => if h = 1 then exstyle1 else exstyle2
  background := fun _ => bg
  alpha := fun _ => none
  redraws := fun _ => 0

/-- The editor process with no failing calls. -/
def editor (style exstyle1 exstyle2 bg err : Nat) : Sys where
  pid := 7
  desk := editorDesk style exstyle1 exstyle2 bg
  faults := fun _ _ => none
  lastError := err
  brushes := []
  log := []
  dialogs := []

/-- The editor desktop seen from another process: no window belongs to the
caller. -/
def strangerSys : Sys := { editor 0x14CF0000 0x100 0x200 9 0 with pid := 8 }

/-- The editor process on a desktop where every extended-style write is
refused with error 5. -/
def refusedWrite : Sys :=
  { editor 0x14CF0000 0x100 0x200 9 0 with
    faults := fun a _ => if a = Api.SetWindowLongPtr Index.GWL_EXSTYLE then some 4 else none }

/-- The editor process on a desktop where every basic-style write is refused
with error 5. -/
def refusedStyleWrite : Sys :=
  { editor 0x14CF0000 0x100 0x200 9 0 with
    faults := fun a _ => if a = Api.SetWindowLongPtr Index.GWL_STYLE then some 4 else none }

/-- An editor window without any child window. -/
def bareEditor : Sys :=
  { editor 0x14CF0000 0x100 0x200 9 0 with
    desk := { editorDesk 0x14CF0000 0x100 0x200 9 with count := 1 } }

/-! ## Vocabulary of the statements -/

/-- No injected failure: every window-manager call on an existing handle
performs its effect. -/
def NoFaults (s : Sys) : Prop := ∀ a h, s.faults a h = none

/-- The parts of the environment that no call of the model changes. -/
def registry (s : Sys) :
    Nat × Nat × (HWND → HWND) × (HWND → Option Nat) × (HWND → Option String) ×
      (Api → HWND → Option Nat) :=
  (s.pid, s.desk.count, s.desk.parent, s.desk.owner, s.desk.className, s.faults)

/-- All style masks are 32-bit values. -/
def Masks32 (s : Sys) : Prop :=
  ∀ h, s.desk.style h < 4294967296 ∧ s.desk.exstyle h < 4294967296

/-- The caption, resizable border, maximize and minimize flags, the flag group
that `set_fullscreen` hands to `adjust_style_flags`. -/
def FULLSCREEN_FLAGS : Nat :=
  WS_CAPTION ||| WS_THICKFRAME ||| WS_MAXIMIZEBOX ||| WS_MINIMIZEBOX

/-- The brush colour `set_window_style` builds from its argument. -/
def brushColor (arg : Int) : Nat := RGB (BYTE (arg / 65536)) (BYTE (arg / 256)) (BYTE arg)

/-- The clamp of `set_alpha`, as the spec words it. -/
def clamp (v : Int) : Int := max 0 (min v 255)

/-! ## Bit-level facts about the adjusted mask -/

theorem testBit_of_lt32 {m i : Nat} (hm : m < 4294967296) (hi : 32 ≤ i) :
    m.testBit i = false := by
  apply Nat.testBit_lt_two_pow
  calc m < 2 ^ 32 := by simpa using hm
    _ ≤ 2 ^ i := Nat.pow_le_pow_right (by decide) hi

theorem testBit_DWORD (n i : Nat) :
    (DWORD n).testBit i = (decide (i < 32) && n.testBit i) := by
  unfold DWORD
  rw [show (4294967296 : Nat) = 2 ^ 32 by norm_num, Nat.testBit_mod_two_pow]

theorem testBit_mask32 (i : Nat) : (4294967295 : Nat).testBit i = decide (i < 32) := by
  rw [show (4294967295 : Nat) = 2 ^ 32 - 1 by norm_num]
  exact Nat.testBit_two_pow_sub_one 32 i

theorem DWORD_lt (n : Nat) : DWORD n < 4294967296 := Nat.mod_lt _ (by decide)

theorem DWORD_of_lt {n : Nat} (h : n < 4294967296) : DWORD n = n := Nat.mod_eq_of_lt h

/-- Bitwise reading of the mask computed by the style mutators. -/
theorem adjusted_testBit (m f : Nat) (p : Int) (i : Nat) (hm : m < 4294967296) :
    (adjusted m f p).testBit i =
      if p = 0 then (m.testBit i || (decide (i < 32) && f.testBit i))
      else (m.testBit i && !f.testBit i) := by
  unfold adjusted
  by_cases hi : i < 32
  · split <;> simp [testBit_DWORD, testBit_mask32, hi]
  · have hmi : m.testBit i = false := testBit_of_lt32 hm (Nat.le_of_not_lt hi)
    split <;> simp [testBit_DWORD, testBit_mask32, hi, hmi]

theorem adjusted_lt (m f : Nat) (p : Int) (hm : m < 4294967296) :
    adjusted m f p < 4294967296 := by
  unfold adjusted
  split
  · exact DWORD_lt _
  · exact Nat.lt_of_le_of_lt Nat.and_le_left hm

/-- Setting a flag group leaves every flag of the group set. -/
theorem adjusted_set_land (m f : Nat) (hm : m < 4294967296) (hf : f < 4294967296) :
    adjusted m f 0 &&& f = f := by
  apply Nat.eq_of_testBit_eq
  intro i
  rw [Nat.testBit_and, adjusted_testBit m f 0 i hm]
  by_cases hi : i < 32
  · cases m.testBit i <;> cases f.testBit i <;> simp [hi]
  · simp [testBit_of_lt32 hf (Nat.le_of_not_lt hi)]

/-- Clearing a flag group leaves every flag of the group clear. -/
theorem adjusted_clear_land (m f : Nat) (p : Int) (hp : p ≠ 0) (hm : m < 4294967296) :
    adjusted m f p &&& f = 0 := by
  apply Nat.eq_of_testBit_eq
  intro i
  rw [Nat.testBit_and, adjusted_testBit m f p i hm]
  cases m.testBit i <;> cases f.testBit i <;> simp [hp]

/-- Bits outside the flag group are not touched. -/
theorem adjusted_outside (m f : Nat) (p : Int) (i : Nat) (hm : m < 4294967296)
    (hfi : f.testBit i = false) : (adjusted m f p).testBit i = m.testBit i := by
  rw [adjusted_testBit m f p i hm]
  split <;> simp [hfi]

/-- Clearing a flag group and setting it again restores a mask that had the
whole group set. -/
theorem adjusted_round_trip (m f : Nat) (p : Int) (hp : p ≠ 0) (hm : m < 4294967296)
    (hmf : m &&& f = f) : adjusted (adjusted m f p) f 0 = m := by
  apply Nat.eq_of_testBit_eq
  intro i
  have hbit : (m.testBit i && f.testBit i) = f.testBit i := by
    rw [← Nat.testBit_and, hmf]
  rw [adjusted_testBit _ f 0 i (adjusted_lt m f p hm), adjusted_testBit m f p i hm]
  by_cases hi : i < 32
  · revert hbit
    cases m.testBit i <;> cases f.testBit i <;> simp [hp, hi]
  · simp [testBit_of_lt32 hm (Nat.le_of_not_lt hi), hp, hi]

/-! ## Frame facts: the registry -/

theorem fault_registry {s t : Sys} (h : registry t = registry s) (a : Api) (w : Nat) :
    fault t a w = fault s a w := by
  simp only [registry, Prod.mk.injEq] at h
  obtain ⟨-, h2, -, -, -, h6⟩ := h
  simp [fault, h2, h6]

theorem registry_display_error (n : Nat) (s : Sys) :
    registry (display_error n s) = registry s := by
  unfold display_error
  dsimp only
  split <;> rfl

theorem registry_GetWindowLongPtr (w : Nat) (i : Index) (s : Sys) :
    registry (GetWindowLongPtr w i s).2 = registry s := by
  unfold GetWindowLongPtr
  split
  · rfl
  · cases i <;> rfl

theorem registry_SetWindowLongPtr (w : Nat) (i : Index) (v : Nat) (s : Sys) :
    registry (SetWindowLongPtr w i v s).2 = registry s := by
  unfold SetWindowLongPtr
  dsimp only
  split
  · rfl
  · cases i <;> rfl

theorem registry_SetClassLongPtr (w : Nat) (v : Nat) (s : Sys) :
    registry (SetClassLongPtr w v s).2 = registry s := by
  unfold SetClassLongPtr
  dsimp only
  split <;> rfl

theorem registry_SetLayeredWindowAttributes (w : Nat) (v : Nat) (s : Sys) :
    registry (SetLayeredWindowAttributes w v s).2 = registry s := by
  unfold SetLayeredWindowAttributes
  dsimp only
  split <;> rfl

theorem registry_SetWindowPos (w : Nat) (s : Sys) :
    registry (SetWindowPos w s).2 = registry s := by
  unfold SetWindowPos
  dsimp only
  split <;> rfl

theorem registry_CreateSolidBrush (c : Nat) (s : Sys) :
    registry (CreateSolidBrush c s).2 = registry s := by
  unfold CreateSolidBrush
  split <;> rfl

/-! ## Window lookup -/

theorem mem_handles {s : Sys} {h : Nat} : h ∈ handles s ↔ 1 ≤ h ∧ h ≤ s.desk.count := by
  unfold handles
  simp only [List.mem_map, List.mem_range]
  constructor
  · rintro ⟨a, ha, rfl⟩
    exact ⟨Nat.succ_pos a, Nat.succ_le_of_lt ha⟩
  · rintro ⟨h1, h2⟩
    refine ⟨h - 1, ?_, ?_⟩
    · omega
    · show h - 1 + 1 = h
      omega

theorem enum_windows_proc_some {s : Sys} {h r : Nat} (e : enum_windows_proc s h = some r) :
    r = h ∧ IsWindowVisible s h = true ∧ s.desk.owner h = some s.pid := by
  unfold enum_windows_proc GetWindowThreadProcessId GetCurrentProcessId at e
  split at e
  · split at e
    · split at e
      · simp_all
      · simp at e
    · simp at e
  · simp at e

theorem enum_child_windows_proc_some {s : Sys} {h r : Nat}
    (e : enum_child_windows_proc s h = some r) :
    r = h ∧ s.desk.className h = some "VimTextArea" := by
  unfold enum_child_windows_proc GetClassNameA at e
  split at e
  · simp at e
  · split at e
    · simp_all
    · simp at e

/-- What a successful top-level lookup returns. -/
theorem get_hwnd_spec {s : Sys} (hne : get_hwnd s ≠ NULL) :
    1 ≤ get_hwnd s ∧ get_hwnd s ≤ s.desk.count ∧ s.desk.parent (get_hwnd s) = 0 ∧
      IsWindowVisible s (get_hwnd s) = true ∧ s.desk.owner (get_hwnd s) = some s.pid := by
  unfold get_hwnd EnumWindows at hne ⊢
  cases hf : ((handles s).filter (fun h => s.desk.parent h = 0)).findSome?
      (enum_windows_proc s) with
  | none => simp [hf] at hne
  | some r =>
    obtain ⟨a, ha, hr⟩ := List.exists_of_findSome?_eq_some hf
    obtain ⟨rfl, hv, ho⟩ := enum_windows_proc_some hr
    simp only [List.mem_filter, decide_eq_true_eq] at ha
    have := mem_handles.mp ha.1
    simp only [Option.getD_some]
    exact ⟨this.1, this.2, ha.2, hv, ho⟩

/-- The top-level lookup fails when no top-level window is both visible and
owned by the current process. -/
theorem get_hwnd_eq_NULL {s : Sys}
    (hno : ∀ h, 1 ≤ h → h ≤ s.desk.count → s.desk.parent h = 0 →
      ¬ (IsWindowVisible s h = true ∧ s.desk.owner h = some s.pid)) :
    get_hwnd s = NULL := by
  by_contra hne
  obtain ⟨h1, h2, h3, h4, h5⟩ := get_hwnd_spec hne
  exact hno _ h1 h2 h3 ⟨h4, h5⟩

/-- The top-level lookup only depends on the registry and on visibility. -/
theorem get_hwnd_congr {s t : Sys} (hr : registry t = registry s)
    (hv : ∀ h, IsWindowVisible t h = IsWindowVisible s h) : get_hwnd t = get_hwnd s := by
  simp only [registry, Prod.mk.injEq] at hr
  obtain ⟨h1, h2, h3, h4, -, -⟩ := hr
  have hp : enum_windows_proc t = enum_windows_proc s := by
    funext h
    simp [enum_windows_proc, GetWindowThreadProcessId, GetCurrentProcessId, hv, h1, h4]
  simp only [get_hwnd, EnumWindows, handles, h2, h3, hp]

/-- The text-area lookup only depends on the registry and on visibility. -/
theorem get_textarea_hwnd_congr {s t : Sys} (hr : registry t = registry s)
    (hv : ∀ h, IsWindowVisible t h = IsWindowVisible s h) :
    get_textarea_hwnd t = get_textarea_hwnd s := by
  have hg := get_hwnd_congr hr hv
  simp only [registry, Prod.mk.injEq] at hr
  obtain ⟨-, h2, h3, -, h5, -⟩ := hr
  have hp : enum_child_windows_proc t = enum_child_windows_proc s := by
    funext h
    simp [enum_child_windows_proc, GetClassNameA, h5]
  simp only [get_textarea_hwnd, EnumChildWindows, handles, h2, h3, hp, hg]

/-- What a successful text-area lookup returns. -/
theorem get_textarea_hwnd_spec {s : Sys} (hne : get_textarea_hwnd s ≠ NULL) :
    get_hwnd s ≠ NULL ∧ 1 ≤ get_textarea_hwnd s ∧ get_textarea_hwnd s ≤ s.desk.count ∧
      s.desk.parent (get_textarea_hwnd s) = get_hwnd s ∧
      s.desk.className (get_textarea_hwnd s) = some "VimTextArea" := by
  unfold get_textarea_hwnd at hne ⊢
  by_cases hp : get_hwnd s = NULL
  · simp [hp] at hne
  · simp only [hp, if_false] at hne ⊢
    unfold EnumChildWindows at hne ⊢
    cases hf : ((handles s).filter (fun h => s.desk.parent h = get_hwnd s)).findSome?
        (enum_child_windows_proc s) with
    | none => simp [hf] at hne
    | some r =>
      obtain ⟨a, ha, hr⟩ := List.exists_of_findSome?_eq_some hf
      obtain ⟨rfl, hc⟩ := enum_child_windows_proc_some hr
      simp only [List.mem_filter, decide_eq_true_eq] at ha
      have := mem_handles.mp ha.1
      simp only [Option.getD_some]
      exact ⟨fun h => hp h, this.1, this.2, ha.2, hc⟩

theorem fault_none_of_NoFaults {s : Sys} (hnf : NoFaults s) (a : Api) {h : Nat}
    (h1 : 1 ≤ h) (h2 : h ≤ s.desk.count) : fault s a h = none := by
  have hv : ¬ (h = 0 ∨ s.desk.count < h) := by omega
  unfold fault
  rw [if_neg hv, hnf a h]
  rfl

theorem fault_ne_zero (s : Sys) (a : Api) (h : Nat) : fault s a h ≠ some 0 := by
  unfold fault
  split
  · simp [ERROR_INVALID_WINDOW_HANDLE]
  · cases s.faults a h <;> simp

theorem DWORD_ne_zero_of_visible {s : Sys} {h : Nat} (hv : IsWindowVisible s h = true) :
    DWORD (s.desk.style h) ≠ 0 := by
  intro h0
  have hb : (DWORD (s.desk.style h)).testBit 28 = false := by rw [h0]; simp
  rw [testBit_DWORD] at hb
  have hb2 : (s.desk.style h).testBit 28 = false := by simpa using hb
  unfold IsWindowVisible at hv
  have : s.desk.style h &&& WS_VISIBLE = 0 := by
    apply Nat.eq_of_testBit_eq
    intro i
    rw [Nat.testBit_and, show WS_VISIBLE = 2 ^ 28 by decide, Nat.testBit_two_pow]
    by_cases hi : 28 = i
    · subst hi; simp [hb2]
    · simp [hi]
  simp [this] at hv

/-! ### Effect of each window-manager call, field by field -/

@[simp] theorem display_error_desk (n : Nat) (s : Sys) : (display_error n s).desk = s.desk := by
  unfold display_error
  dsimp only
  split <;> rfl

@[simp] theorem display_error_log (n : Nat) (s : Sys) : (display_error n s).log = s.log := by
  unfold display_error
  dsimp only
  split <;> rfl

@[simp] theorem display_error_lastError (n : Nat) (s : Sys) :
    (display_error n s).lastError = s.lastError := by
  unfold display_error
  dsimp only
  split <;> rfl

@[simp] theorem display_error_brushes (n : Nat) (s : Sys) :
    (display_error n s).brushes = s.brushes := by
  unfold display_error
  dsimp only
  split <;> rfl

theorem GetWindowLongPtr_ok {s : Sys} {w : Nat} {i : Index}
    (hf : fault s (.GetWindowLongPtr i) w = none) :
    GetWindowLongPtr w i s =
      (match i with
        | .GWL_STYLE => s.desk.style w
        | .GWL_EXSTYLE => s.desk.exstyle w, s) := by
  unfold GetWindowLongPtr
  rw [hf]
  cases i <;> rfl

theorem GetWindowLongPtr_fail {s : Sys} {w : Nat} {i : Index} {e : Nat}
    (hf : fault s (.GetWindowLongPtr i) w = some e) :
    GetWindowLongPtr w i s = (0, { s with lastError := e }) := by
  unfold GetWindowLongPtr
  rw [hf]

@[simp] theorem GetWindowLongPtr_desk (w : Nat) (i : Index) (s : Sys) :
    (GetWindowLongPtr w i s).2.desk = s.desk := by
  unfold GetWindowLongPtr
  split
  · rfl
  · cases i <;> rfl

@[simp] theorem GetWindowLongPtr_log (w : Nat) (i : Index) (s : Sys) :
    (GetWindowLongPtr w i s).2.log = s.log := by
  unfold GetWindowLongPtr
  split
  · rfl
  · cases i <;> rfl

@[simp] theorem GetWindowLongPtr_brushes (w : Nat) (i : Index) (s : Sys) :
    (GetWindowLongPtr w i s).2.brushes = s.brushes := by
  unfold GetWindowLongPtr
  split
  · rfl
  · cases i <;> rfl

@[simp] theorem SetWindowLongPtr_log (w : Nat) (i : Index) (v : Nat) (s : Sys) :
    (SetWindowLongPtr w i v s).2.log = s.log ++ [Call.SetWindowLongPtr w i v] := by
  unfold SetWindowLongPtr
  dsimp only
  split
  · rfl
  · cases i <;> rfl

@[simp] theorem SetWindowLongPtr_brushes (w : Nat) (i : Index) (v : Nat) (s : Sys) :
    (SetWindowLongPtr w i v s).2.brushes = s.brushes := by
  unfold SetWindowLongPtr
  dsimp only
  split
  · rfl
  · cases i <;> rfl

@[simp] theorem SetWindowLongPtr_background (w : Nat) (i : Index) (v : Nat) (s : Sys) :
    (SetWindowLongPtr w i v s).2.desk.background = s.desk.background := by
  unfold SetWindowLongPtr
  dsimp only
  split
  · rfl
  · cases i <;> rfl

@[simp] theorem SetWindowLongPtr_EXSTYLE_style (w v : Nat) (s : Sys) :
    (SetWindowLongPtr w .GWL_EXSTYLE v s).2.desk.style = s.desk.style := by
  unfold SetWindowLongPtr
  dsimp only
  split <;> rfl

@[simp] theorem SetWindowLongPtr_STYLE_exstyle (w v : Nat) (s : Sys) :
    (SetWindowLongPtr w .GWL_STYLE v s).2.desk.exstyle = s.desk.exstyle := by
  unfold SetWindowLongPtr
  dsimp only
  split <;> rfl

/-- A write that does not fail stores the value and returns the old one. -/
theorem SetWindowLongPtr_ok {s : Sys} {w : Nat} {i : Index} (v : Nat)
    (hf : fault s (.SetWindowLongPtr i) w = none) :
    (SetWindowLongPtr w i v s).2.lastError = s.lastError ∧
    (match i with
      | .GWL_STYLE =>
        (SetWindowLongPtr w i v s).1 = s.desk.style w ∧
        (SetWindowLongPtr w i v s).2.desk.style = Function.update s.desk.style w v
      | .GWL_EXSTYLE =>
        (SetWindowLongPtr w i v s).1 = s.desk.exstyle w ∧
        (SetWindowLongPtr w i v s).2.desk.exstyle = Function.update s.desk.exstyle w v) := by
  have hf2 : fault { s with log := s.log ++ [Call.SetWindowLongPtr w i v] }
      (.SetWindowLongPtr i) w = none := hf
  unfold SetWindowLongPtr
  dsimp only
  rw [hf2]
  cases i <;> exact ⟨rfl, rfl, rfl⟩

/-- A write that fails returns zero, sets the last error and changes no window. -/
theorem SetWindowLongPtr_fail {s : Sys} {w : Nat} {i : Index} {e : Nat} (v : Nat)
    (hf : fault s (.SetWindowLongPtr i) w = some e) :
    (SetWindowLongPtr w i v s).1 = 0 ∧ (SetWindowLongPtr w i v s).2.lastError = e ∧
      (SetWindowLongPtr w i v s).2.desk = s.desk := by
  have hf2 : fault { s with log := s.log ++ [Call.SetWindowLongPtr w i v] }
      (.SetWindowLongPtr i) w = some e := hf
  unfold SetWindowLongPtr
  dsimp only
  rw [hf2]
  exact ⟨rfl, rfl, rfl⟩

/-- A write changes the addressed mask of the addressed window or nothing. -/
theorem SetWindowLongPtr_style_cases (w v : Nat) (s : Sys) :
    (SetWindowLongPtr w .GWL_STYLE v s).2.desk.style = s.desk.style ∨
    (SetWindowLongPtr w .GWL_STYLE v s).2.desk.style = Function.update s.desk.style w v := by
  cases hf : fault s (.SetWindowLongPtr .GWL_STYLE) w with
  | none => exact Or.inr (SetWindowLongPtr_ok v hf).2.2
  | some e => left; rw [(SetWindowLongPtr_fail v hf).2.2]

theorem SetWindowLongPtr_exstyle_cases (w v : Nat) (s : Sys) :
    (SetWindowLongPtr w .GWL_EXSTYLE v s).2.desk.exstyle = s.desk.exstyle ∨
    (SetWindowLongPtr w .GWL_EXSTYLE v s).2.desk.exstyle =
      Function.update s.desk.exstyle w v := by
  cases hf : fault s (.SetWindowLongPtr .GWL_EXSTYLE) w with
  | none => exact Or.inr (SetWindowLongPtr_ok v hf).2.2
  | some e => left; rw [(SetWindowLongPtr_fail v hf).2.2]

@[simp] theorem SetClassLongPtr_log (w v : Nat) (s : Sys) :
    (SetClassLongPtr w v s).2.log = s.log ++ [Call.SetClassLongPtr w v] := by
  unfold SetClassLongPtr
  dsimp only
  split <;> rfl

@[simp] theorem SetClassLongPtr_brushes (w v : Nat) (s : Sys) :
    (SetClassLongPtr w v s).2.brushes = s.brushes := by
  unfold SetClassLongPtr
  dsimp only
  split <;> rfl

@[simp] theorem SetClassLongPtr_style (w v : Nat) (s : Sys) :
    (SetClassLongPtr w v s).2.desk.style = s.desk.style := by
  unfold SetClassLongPtr
  dsimp only
  split <;> rfl

@[simp] theorem SetClassLongPtr_exstyle (w v : Nat) (s : Sys) :
    (SetClassLongPtr w v s).2.desk.exstyle = s.desk.exstyle := by
  unfold SetClassLongPtr
  dsimp only
  split <;> rfl

theorem SetClassLongPtr_ok {s : Sys} {w : Nat} (v : Nat)
    (hf : fault s .SetClassLongPtr w = none) :
    (SetClassLongPtr w v s).1 = s.desk.background w ∧
    (SetClassLongPtr w v s).2.lastError = s.lastError ∧
    (SetClassLongPtr w v s).2.desk.background = Function.update s.desk.background w v := by
  have hf2 : fault { s with log := s.log ++ [Call.SetClassLongPtr w v] }
      .SetClassLongPtr w = none := hf
  unfold SetClassLongPtr
  dsimp only
  rw [hf2]
  exact ⟨rfl, rfl, rfl⟩

@[simp] theorem SetLayeredWindowAttributes_log (w v : Nat) (s : Sys) :
    (SetLayeredWindowAttributes w v s).2.log =
      s.log ++ [Call.SetLayeredWindowAttributes w v] := by
  unfold SetLayeredWindowAttributes
  dsimp only
  split <;> rfl

@[simp] theorem SetLayeredWindowAttributes_style (w v : Nat) (s : Sys) :
    (SetLayeredWindowAttributes w v s).2.desk.style = s.desk.style := by
  unfold SetLayeredWindowAttributes
  dsimp only
  split <;> rfl

@[simp] theorem SetLayeredWindowAttributes_exstyle (w v : Nat) (s : Sys) :
    (SetLayeredWindowAttributes w v s).2.desk.exstyle = s.desk.exstyle := by
  unfold SetLayeredWindowAttributes
  dsimp only
  split <;> rfl

@[simp] theorem SetWindowPos_log (w : Nat) (s : Sys) :
    (SetWindowPos w s).2.log = s.log ++ [Call.SetWindowPos w] := by
  unfold SetWindowPos
  dsimp only
  split <;> rfl

@[simp] theorem SetWindowPos_brushes (w : Nat) (s : Sys) :
    (SetWindowPos w s).2.brushes = s.brushes := by
  unfold SetWindowPos
  dsimp only
  split <;> rfl

@[simp] theorem SetWindowPos_style (w : Nat) (s : Sys) :
    (SetWindowPos w s).2.desk.style = s.desk.style := by
  unfold SetWindowPos
  dsimp only
  split <;> rfl

@[simp] theorem SetWindowPos_exstyle (w : Nat) (s : Sys) :
    (SetWindowPos w s).2.desk.exstyle = s.desk.exstyle := by
  unfold SetWindowPos
  dsimp only
  split <;> rfl

@[simp] theorem SetWindowPos_background (w : Nat) (s : Sys) :
    (SetWindowPos w s).2.desk.background = s.desk.background := by
  unfold SetWindowPos
  dsimp only
  split <;> rfl

@[simp] theorem CreateSolidBrush_desk (c : Nat) (s : Sys) :
    (CreateSolidBrush c s).2.desk = s.desk := by
  unfold CreateSolidBrush
  split <;> rfl

@[simp] theorem CreateSolidBrush_log (c : Nat) (s : Sys) :
    (CreateSolidBrush c s).2.log = s.log := by
  unfold CreateSolidBrush
  split <;> rfl

@[simp] theorem CreateSolidBrush_lastError (c : Nat) (s : Sys) :
    (CreateSolidBrush c s).2.lastError = s.lastError := by
  unfold CreateSolidBrush
  split <;> rfl

/-- A created brush is a fresh non-null handle of the requested colour. -/
theorem CreateSolidBrush_ok {c : Nat} {s : Sys} (hb : (CreateSolidBrush c s).1 ≠ NULL) :
    (CreateSolidBrush c s).1 = s.brushes.length + 1 ∧
      (CreateSolidBrush c s).2.brushes = s.brushes ++ [c] := by
  unfold CreateSolidBrush at hb ⊢
  split
  · rename_i e he
    rw [he] at hb
    exact absurd rfl hb
  · exact ⟨rfl, rfl⟩

theorem IsWindowVisible_of_style {s t : Sys} (h : t.desk.style = s.desk.style) (w : Nat) :
    IsWindowVisible t w = IsWindowVisible s w := by
  unfold IsWindowVisible
  rw [h]

/-! ### The two style mutators -/

/-- The three ways through `adjust_exstyle_flags`: the read step fails (no
write is issued), or the mask is written and the result is `1`. -/
theorem adjust_exstyle_flags_cases (w f : Nat) (p : Int) (s : Sys) :
    adjust_exstyle_flags w f p s =
        (0, display_error 104 (GetWindowLongPtr w .GWL_EXSTYLE s).2) ∨
    (fault s (.GetWindowLongPtr .GWL_EXSTYLE) w = none ∧
      (DWORD (s.desk.exstyle w) ≠ 0 ∨ s.lastError = 0) ∧
      adjust_exstyle_flags w f p s =
        (1, (SetWindowLongPtr w .GWL_EXSTYLE (adjusted (DWORD (s.desk.exstyle w)) f p)
          (SetLastError 0 s)).2)) := by
  cases hf : fault s (.GetWindowLongPtr .GWL_EXSTYLE) w with
  | some e =>
    left
    have he : e ≠ 0 := fun h0 => fault_ne_zero s _ w (h0 ▸ hf)
    unfold adjust_exstyle_flags
    simp [GetWindowLongPtr_fail hf, DWORD, GetLastError, he]
  | none =>
    by_cases hc : DWORD (s.desk.exstyle w) ≠ 0 ∨ s.lastError = 0
    · right
      refine ⟨rfl, hc, ?_⟩
      unfold adjust_exstyle_flags
      simp only [GetWindowLongPtr_ok hf, GetLastError]
      rw [if_pos hc]
      simp [SetLastError]
    · left
      unfold adjust_exstyle_flags
      simp only [GetWindowLongPtr_ok hf, GetLastError]
      rw [if_neg hc]

/-- The ways through `adjust_style_flags`: the read step fails (no write is
issued), or the mask is written and the result reports the write. -/
theorem adjust_style_flags_cases (w f : Nat) (p : Int) (s : Sys) :
    adjust_style_flags w f p s =
        (0, display_error 134 (GetWindowLongPtr w .GWL_STYLE s).2) ∨
    (fault s (.GetWindowLongPtr .GWL_STYLE) w = none ∧
      (DWORD (s.desk.style w) ≠ 0 ∨ s.lastError = 0) ∧
      adjust_style_flags w f p s =
        if (SetWindowLongPtr w .GWL_STYLE (adjusted (DWORD (s.desk.style w)) f p)
              (SetLastError 0 s)).1 ≠ 0 ∨
            (SetWindowLongPtr w .GWL_STYLE (adjusted (DWORD (s.desk.style w)) f p)
              (SetLastError 0 s)).2.lastError = 0
        then (1, (SetWindowLongPtr w .GWL_STYLE (adjusted (DWORD (s.desk.style w)) f p)
              (SetLastError 0 s)).2)
        else (0, display_error 148
              (SetWindowLongPtr w .GWL_STYLE (adjusted (DWORD (s.desk.style w)) f p)
                (SetLastError 0 s)).2)) := by
  cases hf : fault s (.GetWindowLongPtr .GWL_STYLE) w with
  | some e =>
    left
    have he : e ≠ 0 := fun h0 => fault_ne_zero s _ w (h0 ▸ hf)
    unfold adjust_style_flags
    simp [GetWindowLongPtr_fail hf, DWORD, GetLastError, he]
  | none =>
    by_cases hc : DWORD (s.desk.style w) ≠ 0 ∨ s.lastError = 0
    · right
      refine ⟨rfl, hc, ?_⟩
      unfold adjust_style_flags
      simp only [GetWindowLongPtr_ok hf, GetLastError]
      rw [if_pos hc]
    · left
      unfold adjust_style_flags
      simp only [GetWindowLongPtr_ok hf, GetLastError]
      rw [if_neg hc]

theorem registry_SetLastError (e : Nat) (s : Sys) : registry (SetLastError e s) = registry s :=
  rfl

theorem registry_adjust_exstyle_flags (w f : Nat) (p : Int) (s : Sys) :
    registry (adjust_exstyle_flags w f p s).2 = registry s := by
  rcases adjust_exstyle_flags_cases w f p s with h | ⟨-, -, h⟩ <;> rw [h]
  · simp only [registry_display_error, registry_GetWindowLongPtr]
  · simp only [registry_SetWindowLongPtr, registry_SetLastError]

theorem registry_adjust_style_flags (w f : Nat) (p : Int) (s : Sys) :
    registry (adjust_style_flags w f p s).2 = registry s := by
  rcases adjust_style_flags_cases w f p s with h | ⟨-, -, h⟩ <;> rw [h]
  · simp only [registry_display_error, registry_GetWindowLongPtr]
  · split <;>
      simp only [registry_display_error, registry_SetWindowLongPtr, registry_SetLastError]

@[simp] theorem adjust_exstyle_flags_style (w f : Nat) (p : Int) (s : Sys) :
    (adjust_exstyle_flags w f p s).2.desk.style = s.desk.style := by
  rcases adjust_exstyle_flags_cases w f p s with h | ⟨-, -, h⟩ <;> rw [h] <;> simp [SetLastError]

@[simp] theorem adjust_exstyle_flags_background (w f : Nat) (p : Int) (s : Sys) :
    (adjust_exstyle_flags w f p s).2.desk.background = s.desk.background := by
  rcases adjust_exstyle_flags_cases w f p s with h | ⟨-, -, h⟩ <;> rw [h] <;> simp [SetLastError]

@[simp] theorem adjust_exstyle_flags_brushes (w f : Nat) (p : Int) (s : Sys) :
    (adjust_exstyle_flags w f p s).2.brushes = s.brushes := by
  rcases adjust_exstyle_flags_cases w f p s with h | ⟨-, -, h⟩ <;> rw [h] <;> simp [SetLastError]

@[simp] theorem adjust_style_flags_exstyle (w f : Nat) (p : Int) (s : Sys) :
    (adjust_style_flags w f p s).2.desk.exstyle = s.desk.exstyle := by
  rcases adjust_style_flags_cases w f p s with h | ⟨-, -, h⟩ <;> rw [h]
  · simp
  · split <;> simp [SetLastError]

@[simp] theorem adjust_style_flags_background (w f : Nat) (p : Int) (s : Sys) :
    (adjust_style_flags w f p s).2.desk.background = s.desk.background := by
  rcases adjust_style_flags_cases w f p s with h | ⟨-, -, h⟩ <;> rw [h]
  · simp
  · split <;> simp [SetLastError]

/-- `adjust_exstyle_flags` leaves the extended styles alone or replaces the
addressed one by the adjusted mask. -/
theorem adjust_exstyle_flags_exstyle (w f : Nat) (p : Int) (s : Sys) :
    (adjust_exstyle_flags w f p s).2.desk.exstyle = s.desk.exstyle ∨
    (adjust_exstyle_flags w f p s).2.desk.exstyle =
      Function.update s.desk.exstyle w (adjusted (DWORD (s.desk.exstyle w)) f p) := by
  rcases adjust_exstyle_flags_cases w f p s with h | ⟨-, -, h⟩ <;> rw [h]
  · left; simp
  · exact SetWindowLongPtr_exstyle_cases w _ (SetLastError 0 s)

/-- `adjust_style_flags` leaves the basic styles alone or replaces the
addressed one by the adjusted mask. -/
theorem adjust_style_flags_style (w f : Nat) (p : Int) (s : Sys) :
    (adjust_style_flags w f p s).2.desk.style = s.desk.style ∨
    (adjust_style_flags w f p s).2.desk.style =
      Function.update s.desk.style w (adjusted (DWORD (s.desk.style w)) f p) := by
  rcases adjust_style_flags_cases w f p s with h | ⟨-, -, h⟩ <;> rw [h]
  · left; simp
  · split
    · exact SetWindowLongPtr_style_cases w _ (SetLastError 0 s)
    · simp only [display_error_desk]
      exact SetWindowLongPtr_style_cases w _ (SetLastError 0 s)

/-- With no failing call, a visible window gets the adjusted style mask. -/
theorem adjust_style_flags_visible {s : Sys} {w : Nat} (f : Nat) (p : Int)
    (hr : fault s (.GetWindowLongPtr .GWL_STYLE) w = none)
    (hw : fault s (.SetWindowLongPtr .GWL_STYLE) w = none)
    (hv : IsWindowVisible s w = true) :
    (adjust_style_flags w f p s).1 = 1 ∧
    (adjust_style_flags w f p s).2.desk.style =
      Function.update s.desk.style w (adjusted (DWORD (s.desk.style w)) f p) := by
  have hnz := DWORD_ne_zero_of_visible hv
  have hw2 : fault (SetLastError 0 s) (.SetWindowLongPtr .GWL_STYLE) w = none := hw
  obtain ⟨-, h1, h2⟩ := SetWindowLongPtr_ok (adjusted (DWORD (s.desk.style w)) f p) hw2
  have hprev : (SetWindowLongPtr w .GWL_STYLE (adjusted (DWORD (s.desk.style w)) f p)
      (SetLastError 0 s)).1 ≠ 0 := by
    rw [h1]
    intro h0
    apply hnz
    show DWORD (s.desk.style w) = 0
    have : s.desk.style w = 0 := h0
    rw [this]; rfl
  rcases adjust_style_flags_cases w f p s with h | ⟨-, -, h⟩
  · exfalso
    have : adjust_style_flags w f p s = _ := h
    unfold adjust_style_flags at this
    simp only [GetWindowLongPtr_ok hr, GetLastError] at this
    rw [if_pos (Or.inl hnz)] at this
    split at this <;> simp_all
  · rw [h, if_pos (Or.inl hprev)]
    exact ⟨rfl, h2⟩

/-! ### Lookups are stable under the calls that do not touch basic styles -/

@[simp] theorem get_hwnd_CreateSolidBrush (c : Nat) (s : Sys) :
    get_hwnd (CreateSolidBrush c s).2 = get_hwnd s :=
  get_hwnd_congr (registry_CreateSolidBrush c s)
    (IsWindowVisible_of_style (by rw [CreateSolidBrush_desk]))

@[simp] theorem get_textarea_hwnd_CreateSolidBrush (c : Nat) (s : Sys) :
    get_textarea_hwnd (CreateSolidBrush c s).2 = get_textarea_hwnd s :=
  get_textarea_hwnd_congr (registry_CreateSolidBrush c s)
    (IsWindowVisible_of_style (by rw [CreateSolidBrush_desk]))

@[simp] theorem get_hwnd_SetClassLongPtr (w v : Nat) (s : Sys) :
    get_hwnd (SetClassLongPtr w v s).2 = get_hwnd s :=
  get_hwnd_congr (registry_SetClassLongPtr w v s)
    (IsWindowVisible_of_style (SetClassLongPtr_style w v s))

/-! ### `set_window_style` -/

theorem registry_set_window_style (x c : Int) (s : Sys) :
    registry (set_window_style x c s).2 = registry s := by
  unfold set_window_style force_redraw
  dsimp only
  split_ifs <;>
    simp only [registry_display_error, registry_SetWindowPos, registry_adjust_exstyle_flags,
      registry_SetClassLongPtr, registry_CreateSolidBrush]

@[simp] theorem set_window_style_style (x c : Int) (s : Sys) :
    (set_window_style x c s).2.desk.style = s.desk.style := by
  unfold set_window_style force_redraw
  dsimp only
  split_ifs <;> simp

/-- Without a text-area child `set_window_style` fails before it touches any
window. -/
theorem set_window_style_no_child {s : Sys} (x c : Int) (hc : get_textarea_hwnd s = NULL) :
    (set_window_style x c s).1 = 0 ∧ (set_window_style x c s).2.desk = s.desk ∧
      (set_window_style x c s).2.log = s.log := by
  unfold set_window_style
  simp only [get_textarea_hwnd_CreateSolidBrush, hc, ne_eq, not_true_eq_false, if_false]
  split_ifs <;> simp

/-- `set_window_style` leaves the extended styles alone or replaces the one of
the text area by the adjusted mask. -/
theorem set_window_style_exstyle (x c : Int) (s : Sys) :
    (set_window_style x c s).2.desk.exstyle = s.desk.exstyle ∨
    (set_window_style x c s).2.desk.exstyle =
      Function.update s.desk.exstyle (get_textarea_hwnd s)
        (adjusted (DWORD (s.desk.exstyle (get_textarea_hwnd s))) WS_EX_CLIENTEDGE x) := by
  unfold set_window_style force_redraw
  simp only [get_textarea_hwnd_CreateSolidBrush, get_hwnd_SetClassLongPtr,
    get_hwnd_CreateSolidBrush]
  split_ifs
  all_goals first
    | (left; simp; done)
    | (simp only [display_error_desk, SetWindowPos_exstyle]
       have h := adjust_exstyle_flags_exstyle (get_textarea_hwnd s) WS_EX_CLIENTEDGE x
          (SetClassLongPtr (get_hwnd s)
            (CreateSolidBrush (RGB (BYTE (c / 65536)) (BYTE (c / 256)) (BYTE c)) s).1
            (SetClassLongPtr (get_textarea_hwnd s)
              (CreateSolidBrush (RGB (BYTE (c / 65536)) (BYTE (c / 256)) (BYTE c)) s).1
              (CreateSolidBrush (RGB (BYTE (c / 65536)) (BYTE (c / 256)) (BYTE c)) s).2).2).2
       simpa using h)

theorem NoFaults_of_registry {s t : Sys} (hr : registry t = registry s) (hnf : NoFaults s) :
    NoFaults t := by
  simp only [registry, Prod.mk.injEq] at hr
  intro a h
  rw [hr.2.2.2.2.2]
  exact hnf a h

theorem count_of_registry {s t : Sys} (hr : registry t = registry s) :
    t.desk.count = s.desk.count := by
  simp only [registry, Prod.mk.injEq] at hr
  exact hr.2.1

theorem SetWindowPos_ok {s : Sys} {w : Nat} (hf : fault s .SetWindowPos w = none) :
    (SetWindowPos w s).1 = 1 ∧ (SetWindowPos w s).2.lastError = s.lastError := by
  have hf2 : fault { s with log := s.log ++ [Call.SetWindowPos w] } .SetWindowPos w = none := hf
  unfold SetWindowPos
  dsimp only
  rw [hf2]
  exact ⟨rfl, rfl⟩

/-- The success path of `set_window_style` when no window-manager call fails:
both lookups succeeded, a fresh brush of the requested colour is the class
background of the text area and of the top-level window, and the text area
has the adjusted extended style. -/
theorem set_window_style_ok {s : Sys} (x c : Int) (hnf : NoFaults s)
    (h1 : (set_window_style x c s).1 = 1) :
    get_textarea_hwnd s ≠ NULL ∧ get_hwnd s ≠ NULL ∧
    (set_window_style x c s).2.brushes = s.brushes ++ [brushColor c] ∧
    (set_window_style x c s).2.desk.exstyle =
      Function.update s.desk.exstyle (get_textarea_hwnd s)
        (adjusted (DWORD (s.desk.exstyle (get_textarea_hwnd s))) WS_EX_CLIENTEDGE x) ∧
    (set_window_style x c s).2.desk.background =
      Function.update (Function.update s.desk.background (get_textarea_hwnd s)
        (s.brushes.length + 1)) (get_hwnd s) (s.brushes.length + 1) ∧
    (set_window_style x c s).2.lastError = 0 := by
  unfold set_window_style force_redraw at h1 ⊢
  simp only [get_textarea_hwnd_CreateSolidBrush, get_hwnd_SetClassLongPtr,
    get_hwnd_CreateSolidBrush] at h1 ⊢
  rw [← brushColor] at h1 ⊢
  by_cases hb : (CreateSolidBrush (brushColor c) s).1 ≠ NULL
  swap
  · rw [if_neg hb] at h1; simp at h1
  rw [if_pos hb] at h1 ⊢
  by_cases hc : get_textarea_hwnd s ≠ NULL
  swap
  · rw [if_neg hc] at h1; simp at h1
  rw [if_pos hc] at h1 ⊢
  obtain ⟨hp, hc1, hc2, -, -⟩ := get_textarea_hwnd_spec hc
  obtain ⟨hp1, hp2, -, -, -⟩ := get_hwnd_spec hp
  obtain ⟨hbv, hbb⟩ := CreateSolidBrush_ok hb
  generalize hB : CreateSolidBrush (brushColor c) s = B at *
  have hBr : registry B.2 = registry s := by rw [← hB]; exact registry_CreateSolidBrush _ _
  have hBd : B.2.desk = s.desk := by rw [← hB]; exact CreateSolidBrush_desk _ _
  generalize hC : SetClassLongPtr (get_textarea_hwnd s) B.1 B.2 = C at *
  have hCr : registry C.2 = registry s := by
    rw [← hC, registry_SetClassLongPtr]; exact hBr
  have hCf : fault B.2 .SetClassLongPtr (get_textarea_hwnd s) = none :=
    fault_none_of_NoFaults (NoFaults_of_registry hBr hnf) _ hc1
      (by rw [count_of_registry hBr]; exact hc2)
  have hCb : C.2.desk.background =
      Function.update s.desk.background (get_textarea_hwnd s) B.1 := by
    rw [← hC, (SetClassLongPtr_ok B.1 hCf).2.2, hBd]
  have hCe : C.2.desk.exstyle = s.desk.exstyle := by
    rw [← hC, SetClassLongPtr_exstyle, hBd]
  by_cases hc3 : C.1 ≠ 0 ∨ GetLastError C.2 = 0
  swap
  · rw [if_neg hc3] at h1; simp at h1
  rw [if_pos hc3, if_pos hp] at h1 ⊢
  generalize hP : SetClassLongPtr (get_hwnd s) B.1 C.2 = P at *
  have hPr : registry P.2 = registry s := by
    rw [← hP, registry_SetClassLongPtr]; exact hCr
  have hPf : fault C.2 .SetClassLongPtr (get_hwnd s) = none :=
    fault_none_of_NoFaults (NoFaults_of_registry hCr hnf) _ hp1
      (by rw [count_of_registry hCr]; exact hp2)
  have hPb : P.2.desk.background =
      Function.update (Function.update s.desk.background (get_textarea_hwnd s) B.1)
        (get_hwnd s) B.1 := by
    rw [← hP, (SetClassLongPtr_ok B.1 hPf).2.2, hCb]
  have hPe : P.2.desk.exstyle = s.desk.exstyle := by
    rw [← hP, SetClassLongPtr_exstyle, hCe]
  have hPbr : P.2.brushes = s.brushes ++ [brushColor c] := by
    rw [← hP, SetClassLongPtr_brushes, ← hC, SetClassLongPtr_brushes, hbb]
  by_cases hc4 : C.1 ≠ 0 ∨ GetLastError C.2 = 0 → P.1 ≠ 0 ∨ GetLastError P.2 = 0
  swap
  · exfalso
    apply hc4
    intro _
    by_contra hc5
    rw [if_neg hc5] at h1; simp at h1
  have hc5 := hc4 hc3
  rw [if_pos hc5] at h1 ⊢
  have hSr : registry (SetLastError 0 P.2) = registry s := hPr
  have hAf : fault (SetLastError 0 P.2) (.SetWindowLongPtr .GWL_EXSTYLE)
      (get_textarea_hwnd s) = none :=
    fault_none_of_NoFaults (NoFaults_of_registry hSr hnf) _ hc1
      (by rw [count_of_registry hSr]; exact hc2)
  rcases adjust_exstyle_flags_cases (get_textarea_hwnd s) WS_EX_CLIENTEDGE x P.2 with
    hA | ⟨-, -, hA⟩
  · rw [hA] at h1; simp at h1
  rw [hA] at h1 ⊢
  obtain ⟨hle, -, hwe⟩ := SetWindowLongPtr_ok
    (adjusted (DWORD (P.2.desk.exstyle (get_textarea_hwnd s))) WS_EX_CLIENTEDGE x) hAf
  generalize hW : SetWindowLongPtr (get_textarea_hwnd s) Index.GWL_EXSTYLE
    (adjusted (DWORD (P.2.desk.exstyle (get_textarea_hwnd s))) WS_EX_CLIENTEDGE x)
    (SetLastError 0 P.2) = W at *
  have hWr : registry W.2 = registry s := by
    rw [← hW, registry_SetWindowLongPtr]; exact hPr
  have hWb : W.2.desk.background = P.2.desk.background := by
    rw [← hW, SetWindowLongPtr_background]; rfl
  have hWbr : W.2.brushes = P.2.brushes := by
    rw [← hW, SetWindowLongPtr_brushes]; rfl
  have hFf : fault W.2 .SetWindowPos (get_textarea_hwnd s) = none :=
    fault_none_of_NoFaults (NoFaults_of_registry hWr hnf) _ hc1
      (by rw [count_of_registry hWr]; exact hc2)
  obtain ⟨hF1, hF2⟩ := SetWindowPos_ok hFf
  have hF3 : (SetWindowPos (get_textarea_hwnd s) W.2).1 ≠ 0 := by rw [hF1]; decide
  simp only [ne_eq, one_ne_zero, not_false_eq_true, if_true] at hF3 ⊢
  rw [if_pos hF3]
  refine ⟨hc, hp, ?_, ?_, ?_, ?_⟩
  · rw [SetWindowPos_brushes, hWbr, hPbr]
  · rw [SetWindowPos_exstyle, hwe]
    show Function.update P.2.desk.exstyle _ _ = _
    rw [hPe]
  · rw [SetWindowPos_background, hWb, hPb, hbv]
  · rw [hF2, hle]; rfl

/-! ## The claims -/

/-- C3: when no top-level window is both visible and owned by the current
process, each of the five public operations returns 0 and issues no window
mutation: no mutating call is logged and the window objects (styles, extended
styles, class backgrounds, alpha levels, repaints) are what they were. -/
theorem no_window_no_mutation (arg : Int) (s : Sys)
    (hno : ∀ h, 1 ≤ h → h ≤ s.desk.count → s.desk.parent h = 0 →
      ¬ (IsWindowVisible s h = true ∧
          GetWindowThreadProcessId s h = some (GetCurrentProcessId s))) :
    ((set_alpha arg s).1 = 0 ∧ (set_alpha arg s).2.desk = s.desk ∧
      (set_alpha arg s).2.log = s.log) ∧
    ((set_fullscreen_on arg s).1 = 0 ∧ (set_fullscreen_on arg s).2.desk = s.desk ∧
      (set_fullscreen_on arg s).2.log = s.log) ∧
    ((set_fullscreen_off arg s).1 = 0 ∧ (set_fullscreen_off arg s).2.desk = s.desk ∧
      (set_fullscreen_off arg s).2.log = s.log) ∧
    ((set_window_style_clean arg s).1 = 0 ∧ (set_window_style_clean arg s).2.desk = s.desk ∧
      (set_window_style_clean arg s).2.log = s.log) ∧
    ((set_window_style_default arg s).1 = 0 ∧
      (set_window_style_default arg s).2.desk = s.desk ∧
      (set_window_style_default arg s).2.log = s.log) := by
  have hg : get_hwnd s = NULL := get_hwnd_eq_NULL hno
  have ht : get_textarea_hwnd s = NULL := by
    unfold get_textarea_hwnd
    simp [hg]
  have hfs : ∀ x : Int, (set_fullscreen x arg s).1 = 0 ∧
      (set_fullscreen x arg s).2.desk = s.desk ∧ (set_fullscreen x arg s).2.log = s.log := by
    intro x
    unfold set_fullscreen
    simp [hg]
  refine ⟨?_, hfs 1, hfs 0, set_window_style_no_child 1 arg ht,
    set_window_style_no_child 0 arg ht⟩
  unfold set_alpha
  simp [hg]

theorem no_window_no_mutation_witness :
    (∀ h, 1 ≤ h → h ≤ strangerSys.desk.count → strangerSys.desk.parent h = 0 →
      ¬ (IsWindowVisible strangerSys h = true ∧
          GetWindowThreadProcessId strangerSys h = some (GetCurrentProcessId strangerSys))) ∧
    (set_alpha 100 strangerSys).1 = 0 ∧ (set_window_style_clean 100 strangerSys).1 = 0 ∧
    (set_fullscreen_on 100 strangerSys).2.log = [] :=
  have hno : ∀ h, 1 ≤ h → h ≤ strangerSys.desk.count → strangerSys.desk.parent h = 0 →
      ¬ (IsWindowVisible strangerSys h = true ∧
          GetWindowThreadProcessId strangerSys h = some (GetCurrentProcessId strangerSys)) := by
    intro h _ _ _ hc
    have := hc.2
    simp [GetWindowThreadProcessId, GetCurrentProcessId, strangerSys, editor, editorDesk] at this
  ⟨hno, (no_window_no_mutation 100 strangerSys hno).1.1,
    (no_window_no_mutation 100 strangerSys hno).2.2.2.1.1,
    (no_window_no_mutation 100 strangerSys hno).2.1.2.2⟩

/-! ### C6 : the alpha level -/

theorem clamp_bounds (v : Int) : 0 ≤ clamp v ∧ clamp v ≤ 255 := by
  unfold clamp
  omega

/-- The two conditional assignments of `set_alpha` compute the clamp. -/
theorem clamp_code (v : Int) :
    (if (if v < 0xFF then v else 0xFF) > 0x00 then (if v < 0xFF then v else 0xFF) else 0x00) =
      clamp v := by
  unfold clamp
  split_ifs <;> omega

theorem BYTE_clamp (v : Int) : (BYTE (clamp v) : Int) = clamp v := by
  obtain ⟨h0, h1⟩ := clamp_bounds v
  unfold BYTE
  rw [Int.emod_eq_of_lt h0 (by omega), Int.toNat_of_nonneg h0]

/-- The mutating calls `adjust_exstyle_flags` issues: none when it fails, one
write when it returns 1. -/
theorem adjust_exstyle_flags_log (w f : Nat) (p : Int) (s : Sys) :
    ((adjust_exstyle_flags w f p s).1 = 0 ∧ (adjust_exstyle_flags w f p s).2.log = s.log) ∨
    ((adjust_exstyle_flags w f p s).1 = 1 ∧ (adjust_exstyle_flags w f p s).2.log =
      s.log ++ [Call.SetWindowLongPtr w .GWL_EXSTYLE (adjusted (DWORD (s.desk.exstyle w)) f p)]) := by
  rcases adjust_exstyle_flags_cases w f p s with h | ⟨-, -, h⟩ <;> rw [h]
  · left; simp
  · right; simp [SetLastError]

/-- C6: for every integer input `v`, the only layered-window call `set_alpha`
issues carries the alpha level `clamp v = max 0 (min v 255)`, a value in
`0 .. 255` that the narrowing to a byte leaves as it is; the call follows the
extended-style write, and it is issued whenever `set_alpha` returns 1. -/
theorem set_alpha_level_is_clamp (v : Int) (s : Sys) :
    ((set_alpha v s).2.log = s.log ∨
      ∃ m a, (set_alpha v s).2.log = s.log ++
        [Call.SetWindowLongPtr (get_hwnd s) .GWL_EXSTYLE m,
          Call.SetLayeredWindowAttributes (get_hwnd s) a] ∧ (a : Int) = clamp v) ∧
    ((set_alpha v s).1 = 1 →
      ∃ m a, (set_alpha v s).2.log = s.log ++
        [Call.SetWindowLongPtr (get_hwnd s) .GWL_EXSTYLE m,
          Call.SetLayeredWindowAttributes (get_hwnd s) a] ∧ (a : Int) = clamp v) := by
  unfold set_alpha
  simp only [clamp_code]
  generalize (if clamp v ≠ 0xFF then (1 : Int) else 0) = p
  by_cases hg : get_hwnd s ≠ NULL
  swap
  · rw [if_neg hg]
    simp
  rw [if_pos hg]
  have hlog := adjust_exstyle_flags_log (get_hwnd s) WS_EX_LAYERED p s
  generalize adjust_exstyle_flags (get_hwnd s) WS_EX_LAYERED p s = A at hlog ⊢
  rcases hlog with ⟨h0, hl⟩ | ⟨h1, hl⟩
  · have hz : ¬ A.1 ≠ 0 := by simp [h0]
    rw [if_neg hz]
    simp [hl]
  · have hnz : A.1 ≠ 0 := by rw [h1]; decide
    rw [if_pos hnz]
    have key : ∃ m a, (SetLayeredWindowAttributes (get_hwnd s) (BYTE (clamp v)) A.2).2.log =
          s.log ++ [Call.SetWindowLongPtr (get_hwnd s) .GWL_EXSTYLE m,
            Call.SetLayeredWindowAttributes (get_hwnd s) a] ∧ (a : Int) = clamp v :=
      ⟨adjusted (DWORD (s.desk.exstyle (get_hwnd s))) WS_EX_LAYERED p, BYTE (clamp v),
        by rw [SetLayeredWindowAttributes_log, hl]; simp, BYTE_clamp v⟩
    split_ifs
    · exact ⟨Or.inr key, fun _ => key⟩
    · refine ⟨Or.inr ?_, fun h => ?_⟩
      · simpa using key
      · simp at h

theorem set_alpha_level_is_clamp_witness :
    (set_alpha 256 (editor 0x14CF0000 0 0x200 9 0)).1 = 1 ∧
    ∃ m a, (set_alpha 256 (editor 0x14CF0000 0 0x200 9 0)).2.log =
      (editor 0x14CF0000 0 0x200 9 0).log ++
        [Call.SetWindowLongPtr (get_hwnd (editor 0x14CF0000 0 0x200 9 0)) .GWL_EXSTYLE m,
          Call.SetLayeredWindowAttributes (get_hwnd (editor 0x14CF0000 0 0x200 9 0)) a] ∧
      (a : Int) = clamp 256 :=
  ⟨by decide, (set_alpha_level_is_clamp 256 (editor 0x14CF0000 0 0x200 9 0)).2 (by decide)⟩

/-- The two inputs named in C6: 256 is passed as 255 and -1 as 0. -/
theorem set_alpha_no_wrap :
    (set_alpha 256 (editor 0x14CF0000 0 0x200 9 0)).2.log =
      [Call.SetWindowLongPtr 1 .GWL_EXSTYLE 0x80000, Call.SetLayeredWindowAttributes 1 255] ∧
    (set_alpha (-1) (editor 0x14CF0000 0 0x200 9 0)).2.log =
      [Call.SetWindowLongPtr 1 .GWL_EXSTYLE 0, Call.SetLayeredWindowAttributes 1 0] ∧
    clamp 256 = 255 ∧ clamp (-1) = 0 := by
  decide

/-! ### C1, C8, C9 : the read and write steps of the mutators -/

theorem fault_none_of_faults {s : Sys} {a : Api} {h : Nat} (h1 : 1 ≤ h)
    (h2 : h ≤ s.desk.count) (hf : s.faults a h = none) : fault s a h = none := by
  have hv : ¬ (h = 0 ∨ s.desk.count < h) := by omega
  unfold fault
  rw [if_neg hv, hf]
  rfl

/-- The read step passes: the mask is written and the result is 1, whatever
the write returns. -/
theorem adjust_exstyle_flags_pass {s : Sys} {w : Nat} (f : Nat) (p : Int)
    (hf : fault s (.GetWindowLongPtr .GWL_EXSTYLE) w = none)
    (hc : DWORD (s.desk.exstyle w) ≠ 0 ∨ s.lastError = 0) :
    adjust_exstyle_flags w f p s =
      (1, (SetWindowLongPtr w .GWL_EXSTYLE (adjusted (DWORD (s.desk.exstyle w)) f p)
        (SetLastError 0 s)).2) := by
  unfold adjust_exstyle_flags
  simp only [GetWindowLongPtr_ok hf, GetLastError]
  rw [if_pos hc]
  simp [SetLastError]

/-- The read step of `adjust_exstyle_flags` rejects a zero mask when the last
error is non-zero, also when the read itself succeeded. -/
theorem adjust_exstyle_flags_stale {s : Sys} {w : Nat} (f : Nat) (p : Int)
    (hf : fault s (.GetWindowLongPtr .GWL_EXSTYLE) w = none)
    (hz : s.desk.exstyle w = 0) (he : s.lastError ≠ 0) :
    adjust_exstyle_flags w f p s = (0, display_error 104 s) := by
  unfold adjust_exstyle_flags
  simp only [GetWindowLongPtr_ok hf, GetLastError, hz]
  rw [if_neg (by simp [DWORD, he])]

/-- The read step of `adjust_style_flags` rejects a zero mask when the last
error is non-zero, also when the read itself succeeded. -/
theorem adjust_style_flags_stale {s : Sys} {w : Nat} (f : Nat) (p : Int)
    (hf : fault s (.GetWindowLongPtr .GWL_STYLE) w = none)
    (hz : s.desk.style w = 0) (he : s.lastError ≠ 0) :
    adjust_style_flags w f p s = (0, display_error 134 s) := by
  unfold adjust_style_flags
  simp only [GetWindowLongPtr_ok hf, GetLastError, hz]
  rw [if_neg (by simp [DWORD, he])]

theorem WS_EX_LAYERED_lt : WS_EX_LAYERED < 4294967296 := by decide

/-- C1 (what the code does): when the top-level window is found and the
extended-style read and write succeed, `set_alpha v` writes
`old | WS_EX_LAYERED` exactly when `clamp v = 255` and `old & ~WS_EX_LAYERED`
when `clamp v < 255`; the layered flag ends up set for the opaque level and
clear for every transparent level, the reverse of the claim. -/
theorem set_alpha_layered_flag (v : Int) (s : Sys) (hg : get_hwnd s ≠ NULL)
    (hr : s.faults (.GetWindowLongPtr .GWL_EXSTYLE) (get_hwnd s) = none)
    (hw : s.faults (.SetWindowLongPtr .GWL_EXSTYLE) (get_hwnd s) = none)
    (hc : DWORD (s.desk.exstyle (get_hwnd s)) ≠ 0 ∨ s.lastError = 0) :
    (set_alpha v s).2.desk.exstyle (get_hwnd s) =
        adjusted (DWORD (s.desk.exstyle (get_hwnd s))) WS_EX_LAYERED
          (if clamp v = 255 then 0 else 1) ∧
    (set_alpha v s).2.desk.exstyle (get_hwnd s) &&& WS_EX_LAYERED =
        if clamp v = 255 then WS_EX_LAYERED else 0 := by
  obtain ⟨h1, h2, -, -, -⟩ := get_hwnd_spec hg
  have hfr := fault_none_of_faults h1 h2 hr
  have hfw : fault (SetLastError 0 s) (.SetWindowLongPtr .GWL_EXSTYLE) (get_hwnd s) = none :=
    fault_none_of_faults h1 h2 hw
  have hex : (set_alpha v s).2.desk.exstyle (get_hwnd s) =
      adjusted (DWORD (s.desk.exstyle (get_hwnd s))) WS_EX_LAYERED
        (if clamp v = 255 then 0 else 1) := by
    have hp : (if clamp v ≠ 0xFF then (1 : Int) else 0) = if clamp v = 255 then 0 else 1 := by
      split_ifs <;> simp_all
    unfold set_alpha
    simp only [clamp_code]
    rw [if_pos hg, hp, adjust_exstyle_flags_pass _ _ hfr hc]
    generalize (if clamp v = 255 then (0 : Int) else 1) = q
    have hwe := (SetWindowLongPtr_ok (adjusted (DWORD (s.desk.exstyle (get_hwnd s)))
      WS_EX_LAYERED q) hfw).2.2
    have hup : Function.update (SetLastError 0 s).desk.exstyle (get_hwnd s)
        (adjusted (DWORD (s.desk.exstyle (get_hwnd s))) WS_EX_LAYERED q) (get_hwnd s) =
        adjusted (DWORD (s.desk.exstyle (get_hwnd s))) WS_EX_LAYERED q :=
      Function.update_same _ _ _
    split_ifs <;>
      simp only [display_error_desk, SetLayeredWindowAttributes_exstyle, hwe, hup]
  refine ⟨hex, ?_⟩
  rw [hex]
  by_cases h255 : clamp v = 255
  · rw [if_pos h255, if_pos h255]
    exact adjusted_set_land _ _ (DWORD_lt _) WS_EX_LAYERED_lt
  · rw [if_neg h255, if_neg h255]
    exact adjusted_clear_land _ _ 1 (by decide) (DWORD_lt _)

/-- C1 at the failing input: a half-transparent level on an editor window
without extended styles. -/
theorem set_alpha_layered_flag_witness :
    get_hwnd (editor 0x14CF0000 0 0x200 9 0) ≠ NULL ∧ clamp 100 < 255 ∧
    (set_alpha 100 (editor 0x14CF0000 0 0x200 9 0)).2.desk.exstyle
        (get_hwnd (editor 0x14CF0000 0 0x200 9 0)) &&& WS_EX_LAYERED =
      if clamp 100 = 255 then WS_EX_LAYERED else 0 :=
  ⟨by decide, by decide,
    (set_alpha_layered_flag 100 (editor 0x14CF0000 0 0x200 9 0) (by decide) rfl rfl
      (Or.inr rfl)).2⟩

/-- The same run in numbers: level 100 leaves the layered flag clear and level
255 sets it. -/
theorem set_alpha_100_clears_layered :
    (set_alpha 100 (editor 0x14CF0000 0 0x200 9 0)).1 = 1 ∧
    (set_alpha 100 (editor 0x14CF0000 0 0x200 9 0)).2.log =
      [Call.SetWindowLongPtr 1 .GWL_EXSTYLE 0, Call.SetLayeredWindowAttributes 1 100] ∧
    (set_alpha 100 (editor 0x14CF0000 0 0x200 9 0)).2.desk.exstyle 1 &&& WS_EX_LAYERED = 0 ∧
    (set_alpha 255 (editor 0x14CF0000 0 0x200 9 0)).2.desk.exstyle 1 &&& WS_EX_LAYERED =
      WS_EX_LAYERED := by
  decide

/-- The read step passes: the mask is written with a cleared error indicator
and the result reports the write. -/
theorem adjust_style_flags_pass {s : Sys} {w : Nat} (f : Nat) (p : Int)
    (hf : fault s (.GetWindowLongPtr .GWL_STYLE) w = none)
    (hc : DWORD (s.desk.style w) ≠ 0 ∨ s.lastError = 0) :
    adjust_style_flags w f p s =
      if (SetWindowLongPtr w .GWL_STYLE (adjusted (DWORD (s.desk.style w)) f p)
            (SetLastError 0 s)).1 ≠ 0 ∨
          (SetWindowLongPtr w .GWL_STYLE (adjusted (DWORD (s.desk.style w)) f p)
            (SetLastError 0 s)).2.lastError = 0
      then (1, (SetWindowLongPtr w .GWL_STYLE (adjusted (DWORD (s.desk.style w)) f p)
            (SetLastError 0 s)).2)
      else (0, display_error 148
            (SetWindowLongPtr w .GWL_STYLE (adjusted (DWORD (s.desk.style w)) f p)
              (SetLastError 0 s)).2) := by
  unfold adjust_style_flags
  simp only [GetWindowLongPtr_ok hf, GetLastError]
  rw [if_pos hc]

/-- C8 (what the code does): both mutators take a zero mask for a failed read
as soon as the last-error indicator is non-zero, also when the read itself
succeeded and the indicator is left over from an earlier call; they then
return 0 without writing. -/
theorem stale_error_rejects_zero_mask (s : Sys) (w f : Nat) (p : Int)
    (he : GetLastError s ≠ 0) :
    (fault s (.GetWindowLongPtr .GWL_EXSTYLE) w = none → s.desk.exstyle w = 0 →
      GetWindowLongPtr w .GWL_EXSTYLE s = (0, s) ∧
      (adjust_exstyle_flags w f p s).1 = 0 ∧
      (adjust_exstyle_flags w f p s).2.desk = s.desk ∧
      (adjust_exstyle_flags w f p s).2.log = s.log) ∧
    (fault s (.GetWindowLongPtr .GWL_STYLE) w = none → s.desk.style w = 0 →
      GetWindowLongPtr w .GWL_STYLE s = (0, s) ∧
      (adjust_style_flags w f p s).1 = 0 ∧
      (adjust_style_flags w f p s).2.desk = s.desk ∧
      (adjust_style_flags w f p s).2.log = s.log) := by
  constructor
  · intro hf hz
    rw [adjust_exstyle_flags_stale f p hf hz he, GetWindowLongPtr_ok hf]
    simp [hz]
  · intro hf hz
    rw [adjust_style_flags_stale f p hf hz he, GetWindowLongPtr_ok hf]
    simp [hz]

/-- C8 at the failing input: masks 0, a successful read, and error 5 left
over from an earlier call. -/
theorem stale_error_rejects_zero_mask_witness :
    GetLastError (editor 0 0 0 9 5) ≠ 0 ∧
    fault (editor 0 0 0 9 5) (.GetWindowLongPtr .GWL_EXSTYLE) 2 = none ∧
    (editor 0 0 0 9 5).desk.exstyle 2 = 0 ∧
    GetWindowLongPtr 2 .GWL_EXSTYLE (editor 0 0 0 9 5) = (0, editor 0 0 0 9 5) ∧
    (adjust_exstyle_flags 2 WS_EX_CLIENTEDGE 0 (editor 0 0 0 9 5)).1 = 0 ∧
    (adjust_exstyle_flags 2 WS_EX_CLIENTEDGE 0 (editor 0 0 0 9 5)).2.desk =
      (editor 0 0 0 9 5).desk ∧
    (adjust_exstyle_flags 2 WS_EX_CLIENTEDGE 0 (editor 0 0 0 9 5)).2.log =
      (editor 0 0 0 9 5).log :=
  ⟨by decide, by decide, rfl,
    (stale_error_rejects_zero_mask (editor 0 0 0 9 5) 2 WS_EX_CLIENTEDGE 0 (by decide)).1
      (by decide) rfl⟩

/-- The defect of C8 seen from a public operation: with error 5 left over
and a text area whose extended style is 0, `set_window_style_default` returns 0
and the client-edge flag stays clear, although no window-manager call failed;
with a clear indicator the same call succeeds and sets the flag. -/
theorem set_window_style_default_stale_error :
    (set_window_style_default 0x112233 (editor 0x14CF0000 0x100 0 9 5)).1 = 0 ∧
    (set_window_style_default 0x112233 (editor 0x14CF0000 0x100 0 9 5)).2.desk.exstyle 2 = 0 ∧
    (set_window_style_default 0x112233 (editor 0x14CF0000 0x100 0 9 5)).2.dialogs =
      [(104, none), (104, some 5), (191, none), (191, some 5)] ∧
    (set_window_style_default 0x112233 (editor 0x14CF0000 0x100 0 9 0)).1 = 1 ∧
    (set_window_style_default 0x112233 (editor 0x14CF0000 0x100 0 9 0)).2.desk.exstyle 2 =
      WS_EX_CLIENTEDGE := by
  decide

/-- C9 fails for `adjust_exstyle_flags`: the write-back returns zero with error
5, yet the mutator does not return 0, and `set_window_style_clean` and
`set_alpha` go on to return 1 with the extended style unchanged. -/
theorem exstyle_write_failure_ignored :
    ((SetWindowLongPtr 2 .GWL_EXSTYLE 0 (SetLastError 0 refusedWrite)).1 = 0 ∧
      GetLastError (SetWindowLongPtr 2 .GWL_EXSTYLE 0 (SetLastError 0 refusedWrite)).2 = 5) ∧
    ¬ ((adjust_exstyle_flags 2 WS_EX_CLIENTEDGE 1 refusedWrite).1 = 0) ∧
    (set_window_style_clean 0 refusedWrite).1 = 1 ∧
    (set_window_style_clean 0 refusedWrite).2.desk.exstyle 2 = 0x200 ∧
    (set_alpha 100 refusedWrite).1 = 1 := by
  decide

/-- C9 (amended): once the read step has passed, both mutators clear the
error indicator before the write, so that the indicator afterwards is the
write's own status (0, or the code of the failed write).  `adjust_style_flags`
returns 1 when the write did not fail and 0 when it failed;
`adjust_exstyle_flags` does not look at the write and returns 1 either way. -/
theorem write_step_status (s : Sys) (w f : Nat) (p : Int) :
    (fault s (.GetWindowLongPtr .GWL_STYLE) w = none →
      DWORD (s.desk.style w) ≠ 0 ∨ GetLastError s = 0 →
        (adjust_style_flags w f p s).1 =
          (if fault s (.SetWindowLongPtr .GWL_STYLE) w = none then 1 else 0) ∧
        GetLastError (adjust_style_flags w f p s).2 =
          (fault s (.SetWindowLongPtr .GWL_STYLE) w).getD 0) ∧
    (fault s (.GetWindowLongPtr .GWL_EXSTYLE) w = none →
      DWORD (s.desk.exstyle w) ≠ 0 ∨ GetLastError s = 0 →
        (adjust_exstyle_flags w f p s).1 = 1 ∧
        GetLastError (adjust_exstyle_flags w f p s).2 =
          (fault s (.SetWindowLongPtr .GWL_EXSTYLE) w).getD 0) := by
  constructor
  · intro hf hc
    rw [adjust_style_flags_pass f p hf hc]
    cases hw : fault s (.SetWindowLongPtr .GWL_STYLE) w with
    | none =>
      have hw2 : fault (SetLastError 0 s) (.SetWindowLongPtr .GWL_STYLE) w = none := hw
      have hle : (SetWindowLongPtr w .GWL_STYLE (adjusted (DWORD (s.desk.style w)) f p)
          (SetLastError 0 s)).2.lastError = 0 :=
        (SetWindowLongPtr_ok (adjusted (DWORD (s.desk.style w)) f p) hw2).1
      rw [if_pos (Or.inr hle)]
      exact ⟨rfl, hle⟩
    | some e =>
      have hw2 : fault (SetLastError 0 s) (.SetWindowLongPtr .GWL_STYLE) w = some e := hw
      obtain ⟨hz, hle, -⟩ := SetWindowLongPtr_fail (adjusted (DWORD (s.desk.style w)) f p) hw2
      have he : e ≠ 0 := fun h0 => fault_ne_zero s _ w (h0 ▸ hw)
      rw [if_neg (by rw [hz, hle]; simp [he])]
      simp [GetLastError, hle]
  · intro hf hc
    rw [adjust_exstyle_flags_pass f p hf hc]
    refine ⟨rfl, ?_⟩
    cases hw : fault s (.SetWindowLongPtr .GWL_EXSTYLE) w with
    | none =>
      have hw2 : fault (SetLastError 0 s) (.SetWindowLongPtr .GWL_EXSTYLE) w = none := hw
      exact (SetWindowLongPtr_ok (adjusted (DWORD (s.desk.exstyle w)) f p) hw2).1
    | some e =>
      have hw2 : fault (SetLastError 0 s) (.SetWindowLongPtr .GWL_EXSTYLE) w = some e := hw
      exact (SetWindowLongPtr_fail (adjusted (DWORD (s.desk.exstyle w)) f p) hw2).2.1

/-- C9 (amended) at a failed write of either kind, with a stale error 0x57 in
place before the call. -/
theorem write_step_status_witness :
    ((adjust_style_flags 1 FULLSCREEN_FLAGS 1 (SetLastError 0x57 refusedStyleWrite)).1 =
        (if fault (SetLastError 0x57 refusedStyleWrite)
          (.SetWindowLongPtr .GWL_STYLE) 1 = none then 1 else 0) ∧
      GetLastError (adjust_style_flags 1 FULLSCREEN_FLAGS 1
          (SetLastError 0x57 refusedStyleWrite)).2 =
        (fault (SetLastError 0x57 refusedStyleWrite) (.SetWindowLongPtr .GWL_STYLE) 1).getD 0) ∧
    ((adjust_exstyle_flags 2 WS_EX_CLIENTEDGE 1 (SetLastError 0x57 refusedWrite)).1 = 1 ∧
      GetLastError (adjust_exstyle_flags 2 WS_EX_CLIENTEDGE 1
          (SetLastError 0x57 refusedWrite)).2 =
        (fault (SetLastError 0x57 refusedWrite) (.SetWindowLongPtr .GWL_EXSTYLE) 2).getD 0) :=
  ⟨(write_step_status (SetLastError 0x57 refusedStyleWrite) 1 FULLSCREEN_FLAGS 1).1
      (by decide) (by decide),
    (write_step_status (SetLastError 0x57 refusedWrite) 2 WS_EX_CLIENTEDGE 1).2
      (by decide) (by decide)⟩

/-! ### C2, C4 : `set_fullscreen` and the parent style -/

theorem FULLSCREEN_FLAGS_lt : FULLSCREEN_FLAGS < 4294967296 := by decide

theorem IsWindowVisible_eq_testBit (s : Sys) (h : Nat) :
    IsWindowVisible s h = (s.desk.style h).testBit 28 := by
  unfold IsWindowVisible
  have hb : ∀ i, (s.desk.style h &&& WS_VISIBLE).testBit i =
      (decide (28 = i) && (s.desk.style h).testBit 28) := by
    intro i
    rw [Nat.testBit_and, show WS_VISIBLE = 2 ^ 28 by decide, Nat.testBit_two_pow]
    by_cases hi : 28 = i
    · subst hi; simp
    · simp [hi]
  cases hv : (s.desk.style h).testBit 28
  · have : s.desk.style h &&& WS_VISIBLE = 0 := by
      apply Nat.eq_of_testBit_eq
      intro i
      rw [hb, hv]; simp
    simp [this]
  · have : s.desk.style h &&& WS_VISIBLE ≠ 0 := by
      intro h0
      have := hb 28
      rw [h0, hv] at this
      simp at this
    simp [this]

/-- Replacing the style of one window by an adjusted mask whose flag group does
not contain `WS_VISIBLE` changes the visibility of no window. -/
theorem IsWindowVisible_update {s t : Sys} {w f : Nat} {p : Int}
    (hf : f.testBit 28 = false)
    (ht : t.desk.style = s.desk.style ∨
      t.desk.style = Function.update s.desk.style w (adjusted (DWORD (s.desk.style w)) f p))
    (h : Nat) : IsWindowVisible t h = IsWindowVisible s h := by
  rw [IsWindowVisible_eq_testBit, IsWindowVisible_eq_testBit]
  rcases ht with ht | ht <;> rw [ht]
  by_cases hw : h = w
  · subst hw
    rw [Function.update_same, adjusted_outside _ _ _ _ (DWORD_lt _) hf, testBit_DWORD]
    simp
  · rw [Function.update_noteq hw]

theorem set_fullscreen_eq {s : Sys} (x c : Int) (hg : get_hwnd s ≠ NULL) :
    set_fullscreen x c s =
      (1, (force_redraw (get_hwnd s) (adjust_style_flags (get_hwnd s) FULLSCREEN_FLAGS x
        (set_window_style x c s).2).2).2) := by
  unfold set_fullscreen
  rw [if_pos hg]
  rfl

theorem registry_set_fullscreen (x c : Int) (s : Sys) :
    registry (set_fullscreen x c s).2 = registry s := by
  by_cases hg : get_hwnd s ≠ NULL
  · rw [set_fullscreen_eq x c hg]
    simp only [force_redraw, registry_SetWindowPos, registry_adjust_style_flags,
      registry_set_window_style]
  · unfold set_fullscreen
    rw [if_neg hg]
    exact registry_display_error _ _

/-- `set_fullscreen` leaves the basic styles alone or replaces the one of the
top-level window by the adjusted mask. -/
theorem set_fullscreen_style_cases (x c : Int) (s : Sys) :
    (set_fullscreen x c s).2.desk.style = s.desk.style ∨
    (set_fullscreen x c s).2.desk.style =
      Function.update s.desk.style (get_hwnd s)
        (adjusted (DWORD (s.desk.style (get_hwnd s))) FULLSCREEN_FLAGS x) := by
  by_cases hg : get_hwnd s ≠ NULL
  · rw [set_fullscreen_eq x c hg]
    simp only [force_redraw, SetWindowPos_style]
    have h := adjust_style_flags_style (get_hwnd s) FULLSCREEN_FLAGS x (set_window_style x c s).2
    simpa using h
  · unfold set_fullscreen
    rw [if_neg hg]
    left
    simp

/-- The text-area part of `set_fullscreen` is that of `set_window_style`. -/
theorem set_fullscreen_textarea (x c : Int) (s : Sys) :
    (set_fullscreen x c s).2.desk.exstyle = (set_window_style x c s).2.desk.exstyle ∧
    (set_fullscreen x c s).2.desk.background = (set_window_style x c s).2.desk.background := by
  by_cases hg : get_hwnd s ≠ NULL
  · rw [set_fullscreen_eq x c hg]
    simp [force_redraw]
  · have hg2 : get_hwnd s = NULL := not_not.mp hg
    have ht : get_textarea_hwnd s = NULL := by
      unfold get_textarea_hwnd
      simp [hg2]
    unfold set_fullscreen
    rw [if_neg hg, (set_window_style_no_child x c ht).2.1]
    simp

/-- When the top-level window is found and its style read and write do not
fail, `set_fullscreen` returns 1 and the window has the adjusted style mask,
whatever happened to the text-area step. -/
theorem set_fullscreen_parent {s : Sys} (x c : Int) (hg : get_hwnd s ≠ NULL)
    (hr : s.faults (.GetWindowLongPtr .GWL_STYLE) (get_hwnd s) = none)
    (hw : s.faults (.SetWindowLongPtr .GWL_STYLE) (get_hwnd s) = none) :
    (set_fullscreen x c s).1 = 1 ∧
    (set_fullscreen x c s).2.desk.style =
      Function.update s.desk.style (get_hwnd s)
        (adjusted (DWORD (s.desk.style (get_hwnd s))) FULLSCREEN_FLAGS x) ∧
    (set_fullscreen x c s).2.log = (set_window_style x c s).2.log ++
      [Call.SetWindowLongPtr (get_hwnd s) .GWL_STYLE
          (adjusted (DWORD (s.desk.style (get_hwnd s))) FULLSCREEN_FLAGS x),
        Call.SetWindowPos (get_hwnd s)] := by
  obtain ⟨h1, h2, -, hv, -⟩ := get_hwnd_spec hg
  have hreg := registry_set_window_style x c s
  have hsty := set_window_style_style x c s
  have hfr : fault (set_window_style x c s).2 (.GetWindowLongPtr .GWL_STYLE) (get_hwnd s) =
      none := by
    rw [fault_registry hreg]; exact fault_none_of_faults h1 h2 hr
  have hfw : fault (set_window_style x c s).2 (.SetWindowLongPtr .GWL_STYLE) (get_hwnd s) =
      none := by
    rw [fault_registry hreg]; exact fault_none_of_faults h1 h2 hw
  have hv1 : IsWindowVisible (set_window_style x c s).2 (get_hwnd s) = true := by
    rw [IsWindowVisible_of_style hsty]; exact hv
  have hnz := DWORD_ne_zero_of_visible hv1
  obtain ⟨-, hst⟩ := adjust_style_flags_visible FULLSCREEN_FLAGS x hfr hfw hv1
  rw [set_fullscreen_eq x c hg]
  refine ⟨rfl, ?_, ?_⟩
  · simp only [force_redraw, SetWindowPos_style, hst, hsty]
  · simp only [force_redraw, SetWindowPos_log]
    rw [adjust_style_flags_pass _ _ hfr (Or.inl hnz)]
    split <;> simp [SetLastError, hsty]

theorem NoFaults_set_fullscreen {s : Sys} (x c : Int) (hnf : NoFaults s) :
    NoFaults (set_fullscreen x c s).2 :=
  NoFaults_of_registry (registry_set_fullscreen x c s) hnf

/-- `set_fullscreen` does not disturb the top-level lookup. -/
theorem get_hwnd_set_fullscreen (x c : Int) (s : Sys) :
    get_hwnd (set_fullscreen x c s).2 = get_hwnd s :=
  get_hwnd_congr (registry_set_fullscreen x c s)
    (IsWindowVisible_update (by decide) (set_fullscreen_style_cases x c s))

/-- C4: when the top-level window is found and no window-manager call fails,
`set_fullscreen_on` leaves caption, thick frame, maximize box and minimize box
all clear in the parent's style, `set_fullscreen_off` leaves them all set, and
`set_fullscreen_on` followed by `set_fullscreen_off` with the same colour
restores every style mask when the parent's 32-bit mask had the four flags set
at the start. -/
theorem fullscreen_flags_round_trip (color : Int) (s : Sys) (hnf : NoFaults s)
    (hg : get_hwnd s ≠ NULL) :
    ((set_fullscreen_on color s).1 = 1 ∧
      (set_fullscreen_on color s).2.desk.style (get_hwnd s) &&& FULLSCREEN_FLAGS = 0) ∧
    ((set_fullscreen_off color s).1 = 1 ∧
      (set_fullscreen_off color s).2.desk.style (get_hwnd s) &&& FULLSCREEN_FLAGS =
        FULLSCREEN_FLAGS) ∧
    (s.desk.style (get_hwnd s) < 4294967296 →
      s.desk.style (get_hwnd s) &&& FULLSCREEN_FLAGS = FULLSCREEN_FLAGS →
        (set_fullscreen_off color (set_fullscreen_on color s).2).1 = 1 ∧
        (set_fullscreen_off color (set_fullscreen_on color s).2).2.desk.style =
          s.desk.style) := by
  obtain ⟨hon1, hon2, -⟩ := set_fullscreen_parent 1 color hg (hnf _ _) (hnf _ _)
  obtain ⟨hoff1, hoff2, -⟩ := set_fullscreen_parent 0 color hg (hnf _ _) (hnf _ _)
  refine ⟨⟨hon1, ?_⟩, ⟨hoff1, ?_⟩, ?_⟩
  · show (set_fullscreen 1 color s).2.desk.style (get_hwnd s) &&& FULLSCREEN_FLAGS = 0
    rw [hon2, Function.update_same]
    exact adjusted_clear_land _ _ 1 (by decide) (DWORD_lt _)
  · show (set_fullscreen 0 color s).2.desk.style (get_hwnd s) &&& FULLSCREEN_FLAGS = _
    rw [hoff2, Function.update_same]
    exact adjusted_set_land _ _ (DWORD_lt _) FULLSCREEN_FLAGS_lt
  · intro hm hmf
    have hg1 : get_hwnd (set_fullscreen 1 color s).2 = get_hwnd s :=
      get_hwnd_set_fullscreen 1 color s
    have hg1n : get_hwnd (set_fullscreen 1 color s).2 ≠ NULL := by rw [hg1]; exact hg
    have hnf1 := NoFaults_set_fullscreen 1 color hnf
    obtain ⟨hr1, hr2, -⟩ := set_fullscreen_parent 0 color hg1n (hnf1 _ _) (hnf1 _ _)
    refine ⟨hr1, ?_⟩
    show (set_fullscreen 0 color (set_fullscreen 1 color s).2).2.desk.style = s.desk.style
    rw [hr2, hg1, hon2, Function.update_same, Function.update_idem, DWORD_of_lt hm,
      DWORD_of_lt (adjusted_lt _ _ _ hm), adjusted_round_trip _ _ 1 (by decide) hm hmf,
      Function.update_eq_self]

/-- C4 on the sample editor window: style `0x14CF0000` has the four flags. -/
theorem fullscreen_flags_round_trip_witness :
    NoFaults (editor 0x14CF0000 0x100 0x200 9 5) ∧
    get_hwnd (editor 0x14CF0000 0x100 0x200 9 5) ≠ NULL ∧
    (set_fullscreen_on 0x112233 (editor 0x14CF0000 0x100 0x200 9 5)).2.desk.style
        (get_hwnd (editor 0x14CF0000 0x100 0x200 9 5)) &&& FULLSCREEN_FLAGS = 0 ∧
    (set_fullscreen_off 0x112233
        (set_fullscreen_on 0x112233 (editor 0x14CF0000 0x100 0x200 9 5)).2).2.desk.style =
      (editor 0x14CF0000 0x100 0x200 9 5).desk.style :=
  ⟨fun _ _ => rfl, by decide,
    (fullscreen_flags_round_trip 0x112233 (editor 0x14CF0000 0x100 0x200 9 5)
      (fun _ _ => rfl) (by decide)).1.2,
    ((fullscreen_flags_round_trip 0x112233 (editor 0x14CF0000 0x100 0x200 9 5)
      (fun _ _ => rfl) (by decide)).2.2 (by decide) (by decide)).2⟩

/-- C2 fails: on an editor window without a text-area child both fullscreen
operations return 1, and they do modify the caption flags of the parent. -/
theorem fullscreen_without_textarea_succeeds :
    get_hwnd bareEditor ≠ NULL ∧ get_textarea_hwnd bareEditor = NULL ∧
    ¬ ((set_fullscreen_on 0 bareEditor).1 = 0) ∧
    ¬ ((set_fullscreen_off 0 bareEditor).1 = 0) ∧
    ¬ ((set_fullscreen_on 0 bareEditor).2.desk.style 1 &&& FULLSCREEN_FLAGS =
        bareEditor.desk.style 1 &&& FULLSCREEN_FLAGS) := by
  decide

/-- C2 (amended): when the visible top-level window exists but no
`VimTextArea` child is found, `set_fullscreen_on` and `set_fullscreen_off`
return 1.  The text-area step fails at the child lookup and touches no window
(extended styles and class backgrounds stay as they were, no class-background
call is issued); the parent's style is still written and the parent repainted,
so that, when its style read and write do not fail, the caption, thick frame,
maximize and minimize flags end up clear (on) or set (off). -/
theorem fullscreen_without_textarea (color : Int) (s : Sys) (hg : get_hwnd s ≠ NULL)
    (ht : get_textarea_hwnd s = NULL)
    (hr : s.faults (.GetWindowLongPtr .GWL_STYLE) (get_hwnd s) = none)
    (hw : s.faults (.SetWindowLongPtr .GWL_STYLE) (get_hwnd s) = none) :
    ((set_fullscreen_on color s).1 = 1 ∧
      (set_fullscreen_on color s).2.desk.exstyle = s.desk.exstyle ∧
      (set_fullscreen_on color s).2.desk.background = s.desk.background ∧
      (set_fullscreen_on color s).2.log = s.log ++
        [Call.SetWindowLongPtr (get_hwnd s) .GWL_STYLE
            (adjusted (DWORD (s.desk.style (get_hwnd s))) FULLSCREEN_FLAGS 1),
          Call.SetWindowPos (get_hwnd s)] ∧
      (set_fullscreen_on color s).2.desk.style (get_hwnd s) &&& FULLSCREEN_FLAGS = 0) ∧
    ((set_fullscreen_off color s).1 = 1 ∧
      (set_fullscreen_off color s).2.desk.exstyle = s.desk.exstyle ∧
      (set_fullscreen_off color s).2.desk.background = s.desk.background ∧
      (set_fullscreen_off color s).2.log = s.log ++
        [Call.SetWindowLongPtr (get_hwnd s) .GWL_STYLE
            (adjusted (DWORD (s.desk.style (get_hwnd s))) FULLSCREEN_FLAGS 0),
          Call.SetWindowPos (get_hwnd s)] ∧
      (set_fullscreen_off color s).2.desk.style (get_hwnd s) &&& FULLSCREEN_FLAGS =
        FULLSCREEN_FLAGS) := by
  have key : ∀ x : Int, (set_fullscreen x color s).1 = 1 ∧
      (set_fullscreen x color s).2.desk.exstyle = s.desk.exstyle ∧
      (set_fullscreen x color s).2.desk.background = s.desk.background ∧
      (set_fullscreen x color s).2.log = s.log ++
        [Call.SetWindowLongPtr (get_hwnd s) .GWL_STYLE
            (adjusted (DWORD (s.desk.style (get_hwnd s))) FULLSCREEN_FLAGS x),
          Call.SetWindowPos (get_hwnd s)] ∧
      (set_fullscreen x color s).2.desk.style (get_hwnd s) =
        adjusted (DWORD (s.desk.style (get_hwnd s))) FULLSCREEN_FLAGS x := by
    intro x
    obtain ⟨h1, h2, h3⟩ := set_fullscreen_parent x color hg hr hw
    obtain ⟨-, hd, hl⟩ := set_window_style_no_child x color ht
    obtain ⟨he, hb⟩ := set_fullscreen_textarea x color s
    refine ⟨h1, ?_, ?_, ?_, ?_⟩
    · rw [he, hd]
    · rw [hb, hd]
    · rw [h3, hl]
    · rw [h2, Function.update_same]
  obtain ⟨a1, a2, a3, a4, a5⟩ := key 1
  obtain ⟨b1, b2, b3, b4, b5⟩ := key 0
  refine ⟨⟨a1, a2, a3, a4, ?_⟩, ⟨b1, b2, b3, b4, ?_⟩⟩
  · show (set_fullscreen 1 color s).2.desk.style (get_hwnd s) &&& FULLSCREEN_FLAGS = 0
    rw [a5]
    exact adjusted_clear_land _ _ 1 (by decide) (DWORD_lt _)
  · show (set_fullscreen 0 color s).2.desk.style (get_hwnd s) &&& FULLSCREEN_FLAGS = _
    rw [b5]
    exact adjusted_set_land _ _ (DWORD_lt _) FULLSCREEN_FLAGS_lt

/-- C2 (amended) on the editor window without children. -/
theorem fullscreen_without_textarea_witness :
    get_hwnd bareEditor ≠ NULL ∧ get_textarea_hwnd bareEditor = NULL ∧
    (set_fullscreen_on 0 bareEditor).1 = 1 ∧
    (set_fullscreen_on 0 bareEditor).2.desk.style (get_hwnd bareEditor) &&&
      FULLSCREEN_FLAGS = 0 :=
  ⟨by decide, by decide,
    (fullscreen_without_textarea 0 bareEditor (by decide) (by decide) rfl rfl).1.1,
    (fullscreen_without_textarea 0 bareEditor (by decide) (by decide) rfl rfl).1.2.2.2.2⟩

/-! ### C7 : the text-area style -/

theorem WS_EX_CLIENTEDGE_lt : WS_EX_CLIENTEDGE < 4294967296 := by decide

@[simp] theorem adjust_style_flags_brushes (w f : Nat) (p : Int) (s : Sys) :
    (adjust_style_flags w f p s).2.brushes = s.brushes := by
  rcases adjust_style_flags_cases w f p s with h | ⟨-, -, h⟩ <;> rw [h]
  · simp
  · split <;> simp [SetLastError]

/-- `set_window_style` does not disturb the lookups. -/
theorem get_textarea_hwnd_set_window_style (x c : Int) (s : Sys) :
    get_textarea_hwnd (set_window_style x c s).2 = get_textarea_hwnd s :=
  get_textarea_hwnd_congr (registry_set_window_style x c s)
    (IsWindowVisible_of_style (set_window_style_style x c s))

theorem get_hwnd_set_window_style (x c : Int) (s : Sys) :
    get_hwnd (set_window_style x c s).2 = get_hwnd s :=
  get_hwnd_congr (registry_set_window_style x c s)
    (IsWindowVisible_of_style (set_window_style_style x c s))

/-- After a successful `set_window_style` with no failing call, the client
edge of the text area is clear for a non-zero `is_clean_enabled` and set for
zero. -/
theorem set_window_style_client_edge {s : Sys} (x c : Int) (hnf : NoFaults s)
    (h1 : (set_window_style x c s).1 = 1) :
    (set_window_style x c s).2.desk.exstyle (get_textarea_hwnd s) &&& WS_EX_CLIENTEDGE =
      if x = 0 then WS_EX_CLIENTEDGE else 0 := by
  obtain ⟨-, -, -, hex, -, -⟩ := set_window_style_ok x c hnf h1
  rw [hex, Function.update_same]
  by_cases hx : x = 0
  · subst hx
    rw [if_pos rfl]
    exact adjusted_set_land _ _ (DWORD_lt _) WS_EX_CLIENTEDGE_lt
  · rw [if_neg hx]
    exact adjusted_clear_land _ _ x hx (DWORD_lt _)

theorem CreateSolidBrush_ne_NULL {s : Sys} (c : Nat) (hnf : NoFaults s) :
    (CreateSolidBrush c s).1 ≠ NULL := by
  unfold CreateSolidBrush
  rw [hnf]
  exact Nat.succ_ne_zero _

/-- The happy path is taken: with no failing call, a text area in place and a
clear error indicator, `set_window_style` returns 1. -/
theorem set_window_style_succeeds {s : Sys} (x c : Int) (hnf : NoFaults s)
    (hc : get_textarea_hwnd s ≠ NULL) (he : GetLastError s = 0) :
    (set_window_style x c s).1 = 1 := by
  obtain ⟨hp, hc1, hc2, -, -⟩ := get_textarea_hwnd_spec hc
  obtain ⟨hp1, hp2, -, -, -⟩ := get_hwnd_spec hp
  have hb := CreateSolidBrush_ne_NULL (brushColor c) hnf
  unfold set_window_style force_redraw
  simp only [get_textarea_hwnd_CreateSolidBrush, get_hwnd_SetClassLongPtr,
    get_hwnd_CreateSolidBrush]
  rw [← brushColor]
  have hBe : (CreateSolidBrush (brushColor c) s).2.lastError = 0 := by
    rw [CreateSolidBrush_lastError]; exact he
  have hBr := registry_CreateSolidBrush (brushColor c) s
  generalize CreateSolidBrush (brushColor c) s = B at hb hBe hBr ⊢
  rw [if_pos hb, if_pos hc]
  have hCf : fault B.2 .SetClassLongPtr (get_textarea_hwnd s) = none :=
    fault_none_of_NoFaults (NoFaults_of_registry hBr hnf) _ hc1
      (by rw [count_of_registry hBr]; exact hc2)
  have hCe : GetLastError (SetClassLongPtr (get_textarea_hwnd s) B.1 B.2).2 = 0 := by
    show (SetClassLongPtr (get_textarea_hwnd s) B.1 B.2).2.lastError = 0
    rw [(SetClassLongPtr_ok B.1 hCf).2.1]; exact hBe
  have hCr : registry (SetClassLongPtr (get_textarea_hwnd s) B.1 B.2).2 = registry s := by
    rw [registry_SetClassLongPtr]; exact hBr
  generalize SetClassLongPtr (get_textarea_hwnd s) B.1 B.2 = C at hCe hCr ⊢
  rw [if_pos (Or.inr hCe), if_pos hp]
  have hPf : fault C.2 .SetClassLongPtr (get_hwnd s) = none :=
    fault_none_of_NoFaults (NoFaults_of_registry hCr hnf) _ hp1
      (by rw [count_of_registry hCr]; exact hp2)
  have hPe : GetLastError (SetClassLongPtr (get_hwnd s) B.1 C.2).2 = 0 := by
    show (SetClassLongPtr (get_hwnd s) B.1 C.2).2.lastError = 0
    rw [(SetClassLongPtr_ok B.1 hPf).2.1]; exact hCe
  have hPr : registry (SetClassLongPtr (get_hwnd s) B.1 C.2).2 = registry s := by
    rw [registry_SetClassLongPtr]; exact hCr
  generalize SetClassLongPtr (get_hwnd s) B.1 C.2 = P at hPe hPr ⊢
  rw [if_pos (Or.inr hPe)]
  have hAf : fault P.2 (.GetWindowLongPtr .GWL_EXSTYLE) (get_textarea_hwnd s) = none :=
    fault_none_of_NoFaults (NoFaults_of_registry hPr hnf) _ hc1
      (by rw [count_of_registry hPr]; exact hc2)
  rw [adjust_exstyle_flags_pass WS_EX_CLIENTEDGE x hAf (Or.inr hPe)]
  have hWr : registry (SetWindowLongPtr (get_textarea_hwnd s) .GWL_EXSTYLE
      (adjusted (DWORD (P.2.desk.exstyle (get_textarea_hwnd s))) WS_EX_CLIENTEDGE x)
      (SetLastError 0 P.2)).2 = registry s := by
    rw [registry_SetWindowLongPtr]; exact hPr
  generalize SetWindowLongPtr (get_textarea_hwnd s) .GWL_EXSTYLE
      (adjusted (DWORD (P.2.desk.exstyle (get_textarea_hwnd s))) WS_EX_CLIENTEDGE x)
      (SetLastError 0 P.2) = W at hWr ⊢
  have hFf : fault W.2 .SetWindowPos (get_textarea_hwnd s) = none :=
    fault_none_of_NoFaults (NoFaults_of_registry hWr hnf) _ hc1
      (by rw [count_of_registry hWr]; exact hc2)
  have hF1 := (SetWindowPos_ok hFf).1
  simp [hF1]

/-- The success path of the two style operations: with no failing
window-manager call and both operations returning 1,
`set_window_style_clean` followed by `set_window_style_default` leaves the
client-edge flag of the text area set, and `set_window_style_default` followed
by `set_window_style_clean` leaves it clear, whatever the extended-style mask
was at the start.  Both operations do return 1, in either order, whenever the
text area is found and the error indicator is clear at entry. -/
theorem client_edge_last_wins (color : Int) (s : Sys) (hnf : NoFaults s) :
    ((set_window_style_clean color s).1 = 1 →
      (set_window_style_default color (set_window_style_clean color s).2).1 = 1 →
        (set_window_style_default color (set_window_style_clean color s).2).2.desk.exstyle
          (get_textarea_hwnd s) &&& WS_EX_CLIENTEDGE = WS_EX_CLIENTEDGE) ∧
    ((set_window_style_default color s).1 = 1 →
      (set_window_style_clean color (set_window_style_default color s).2).1 = 1 →
        (set_window_style_clean color (set_window_style_default color s).2).2.desk.exstyle
          (get_textarea_hwnd s) &&& WS_EX_CLIENTEDGE = 0) ∧
    (get_textarea_hwnd s ≠ NULL → GetLastError s = 0 →
      (set_window_style_clean color s).1 = 1 ∧
      (set_window_style_default color (set_window_style_clean color s).2).1 = 1 ∧
      (set_window_style_default color s).1 = 1 ∧
      (set_window_style_clean color (set_window_style_default color s).2).1 = 1) := by
  have hnf1 : ∀ x : Int, NoFaults (set_window_style x color s).2 := fun x =>
    NoFaults_of_registry (registry_set_window_style x color s) hnf
  refine ⟨?_, ?_, ?_⟩
  · intro _ h2
    have := set_window_style_client_edge 0 color (hnf1 1) h2
    rw [get_textarea_hwnd_set_window_style] at this
    exact this
  · intro _ h2
    have := set_window_style_client_edge 1 color (hnf1 0) h2
    rw [get_textarea_hwnd_set_window_style] at this
    exact this
  · intro hc he
    have step : ∀ x y : Int, (set_window_style x color s).1 = 1 ∧
        (set_window_style y color (set_window_style x color s).2).1 = 1 := by
      intro x y
      have h1 := set_window_style_succeeds x color hnf hc he
      obtain ⟨-, -, -, -, -, hle⟩ := set_window_style_ok x color hnf h1
      refine ⟨h1, set_window_style_succeeds y color (hnf1 x) ?_ hle⟩
      rw [get_textarea_hwnd_set_window_style]
      exact hc
    exact ⟨(step 1 0).1, (step 1 0).2, (step 0 1).1, (step 0 1).2⟩

/-- The success path on the sample editor, whose text area starts with the
client edge: once with a stale error 5 at entry, once with a clear indicator. -/
theorem client_edge_last_wins_witness :
    NoFaults (editor 0x14CF0000 0x100 0x200 9 5) ∧
    (set_window_style_clean 0x112233 (editor 0x14CF0000 0x100 0x200 9 5)).1 = 1 ∧
    (set_window_style_default 0x112233
      (set_window_style_clean 0x112233 (editor 0x14CF0000 0x100 0x200 9 5)).2).1 = 1 ∧
    (set_window_style_default 0x112233
      (set_window_style_clean 0x112233 (editor 0x14CF0000 0x100 0x200 9 5)).2).2.desk.exstyle
        (get_textarea_hwnd (editor 0x14CF0000 0x100 0x200 9 5)) &&& WS_EX_CLIENTEDGE =
      WS_EX_CLIENTEDGE ∧
    (set_window_style_clean 0x112233
      (set_window_style_default 0x112233 (editor 0x14CF0000 0x100 0x200 9 5)).2).2.desk.exstyle
        (get_textarea_hwnd (editor 0x14CF0000 0x100 0x200 9 5)) &&& WS_EX_CLIENTEDGE = 0 ∧
    (set_window_style_default 0x112233
      (set_window_style_clean 0x112233 (editor 0x14CF0000 0x100 0 0 0)).2).1 = 1 :=
  ⟨fun _ _ => rfl, by decide, by decide,
    (client_edge_last_wins 0x112233 (editor 0x14CF0000 0x100 0x200 9 5) (fun _ _ => rfl)).1
      (by decide) (by decide),
    (client_edge_last_wins 0x112233 (editor 0x14CF0000 0x100 0x200 9 5) (fun _ _ => rfl)).2.1
      (by decide) (by decide),
    ((client_edge_last_wins 0x112233 (editor 0x14CF0000 0x100 0 0 0) (fun _ _ => rfl)).2.2
      (by decide) rfl).2.1⟩

/-- C7 fails for `set_fullscreen_off`: on the sample editor, where every call
succeeds, the client edge of the text area is set afterwards, not clear, and
the extended style differs from the one `set_window_style_clean` leaves. -/
theorem fullscreen_off_is_not_clean :
    (set_fullscreen_off 0x112233 (editor 0x14CF0000 0x100 0x200 9 0)).1 = 1 ∧
    ¬ ((set_fullscreen_off 0x112233 (editor 0x14CF0000 0x100 0x200 9 0)).2.desk.exstyle 2 &&&
        WS_EX_CLIENTEDGE = 0) ∧
    ¬ ((set_fullscreen_off 0x112233 (editor 0x14CF0000 0x100 0x200 9 0)).2.desk.exstyle 2 =
        (set_window_style_clean 0x112233
          (editor 0x14CF0000 0x100 0x200 9 0)).2.desk.exstyle 2) := by
  decide

/-- C7 (amended): `set_fullscreen_on` has the text-area effect of
`set_window_style_clean` and `set_fullscreen_off` that of
`set_window_style_default`, on extended styles and class backgrounds, in every
state.  When no call fails and the style step succeeds, the class background of
the text area and of the parent is a brush of the colour built from the
argument, and the client edge of the text area is clear after
`set_fullscreen_on` and set after `set_fullscreen_off`. -/
theorem fullscreen_textarea_style (color : Int) (s : Sys) :
    ((set_fullscreen_on color s).2.desk.exstyle =
        (set_window_style_clean color s).2.desk.exstyle ∧
      (set_fullscreen_on color s).2.desk.background =
        (set_window_style_clean color s).2.desk.background) ∧
    ((set_fullscreen_off color s).2.desk.exstyle =
        (set_window_style_default color s).2.desk.exstyle ∧
      (set_fullscreen_off color s).2.desk.background =
        (set_window_style_default color s).2.desk.background) ∧
    (NoFaults s → (set_window_style_clean color s).1 = 1 →
      (set_fullscreen_on color s).2.desk.exstyle (get_textarea_hwnd s) &&&
        WS_EX_CLIENTEDGE = 0 ∧
      (set_fullscreen_on color s).2.desk.background (get_textarea_hwnd s) =
        s.brushes.length + 1 ∧
      (set_fullscreen_on color s).2.desk.background (get_hwnd s) = s.brushes.length + 1 ∧
      (set_fullscreen_on color s).2.brushes[s.brushes.length]? =
        some (brushColor color)) ∧
    (NoFaults s → (set_window_style_default color s).1 = 1 →
      (set_fullscreen_off color s).2.desk.exstyle (get_textarea_hwnd s) &&&
        WS_EX_CLIENTEDGE = WS_EX_CLIENTEDGE ∧
      (set_fullscreen_off color s).2.desk.background (get_textarea_hwnd s) =
        s.brushes.length + 1 ∧
      (set_fullscreen_off color s).2.desk.background (get_hwnd s) = s.brushes.length + 1 ∧
      (set_fullscreen_off color s).2.brushes[s.brushes.length]? =
        some (brushColor color)) := by
  have key : ∀ x : Int, NoFaults s → (set_window_style x color s).1 = 1 →
      (set_fullscreen x color s).2.desk.exstyle (get_textarea_hwnd s) &&&
        WS_EX_CLIENTEDGE = (if x = 0 then WS_EX_CLIENTEDGE else 0) ∧
      (set_fullscreen x color s).2.desk.background (get_textarea_hwnd s) =
        s.brushes.length + 1 ∧
      (set_fullscreen x color s).2.desk.background (get_hwnd s) = s.brushes.length + 1 ∧
      (set_fullscreen x color s).2.brushes[s.brushes.length]? =
        some (brushColor color) := by
    intro x hnf h1
    obtain ⟨he, hb⟩ := set_fullscreen_textarea x color s
    obtain ⟨-, hg, hbr, -, hbg, -⟩ := set_window_style_ok x color hnf h1
    have hce := set_window_style_client_edge x color hnf h1
    refine ⟨by rw [he]; exact hce, ?_, ?_, ?_⟩
    · rw [hb, hbg]
      by_cases hh : get_textarea_hwnd s = get_hwnd s
      · rw [hh, Function.update_same]
      · rw [Function.update_noteq hh, Function.update_same]
    · rw [hb, hbg, Function.update_same]
    · rw [set_fullscreen_eq x color hg]
      simp [force_redraw, hbr]
  exact ⟨set_fullscreen_textarea 1 color s, set_fullscreen_textarea 0 color s,
    fun hnf h1 => key 1 hnf h1, fun hnf h1 => key 0 hnf h1⟩

/-- C7 (amended) on the sample editor. -/
theorem fullscreen_textarea_style_witness :
    NoFaults (editor 0x14CF0000 0x100 0x200 9 0) ∧
    (set_window_style_clean 0x112233 (editor 0x14CF0000 0x100 0x200 9 0)).1 = 1 ∧
    (set_window_style_default 0x112233 (editor 0x14CF0000 0x100 0x200 9 0)).1 = 1 ∧
    (set_fullscreen_on 0x112233 (editor 0x14CF0000 0x100 0x200 9 0)).2.desk.exstyle
      (get_textarea_hwnd (editor 0x14CF0000 0x100 0x200 9 0)) &&& WS_EX_CLIENTEDGE = 0 ∧
    (set_fullscreen_off 0x112233 (editor 0x14CF0000 0x100 0x200 9 0)).2.desk.exstyle
      (get_textarea_hwnd (editor 0x14CF0000 0x100 0x200 9 0)) &&& WS_EX_CLIENTEDGE =
        WS_EX_CLIENTEDGE :=
  ⟨fun _ _ => rfl, by decide, by decide,
    ((fullscreen_textarea_style 0x112233 (editor 0x14CF0000 0x100 0x200 9 0)).2.2.1
      (fun _ _ => rfl) (by decide)).1,
    ((fullscreen_textarea_style 0x112233 (editor 0x14CF0000 0x100 0x200 9 0)).2.2.2
      (fun _ _ => rfl) (by decide)).1⟩

/-! ### C10 : only the flag group changes -/

/-- The mutating calls `adjust_style_flags` issues: none when the read step
fails, otherwise the write of the adjusted mask. -/
theorem adjust_style_flags_log (w f : Nat) (p : Int) (s : Sys) :
    (adjust_style_flags w f p s).2.log = s.log ∨
    (adjust_style_flags w f p s).2.log =
      s.log ++ [Call.SetWindowLongPtr w .GWL_STYLE (adjusted (DWORD (s.desk.style w)) f p)] := by
  rcases adjust_style_flags_cases w f p s with h | ⟨-, -, h⟩ <;> rw [h]
  · left; simp
  · right
    split <;> simp [SetLastError]

/-- A mask function that was left alone, or updated at one window with the
adjusted mask, agrees with the old one outside the flag group. -/
theorem testBit_update_adjusted {g m : Nat → Nat} {w F : Nat} {p : Int}
    (hcase : g = m ∨ g = Function.update m w (adjusted (DWORD (m w)) F p))
    (hm : m w < 4294967296) (h i : Nat) (hF : F.testBit i = false) :
    (g h).testBit i = (m h).testBit i := by
  rcases hcase with hg | hg <;> rw [hg]
  by_cases hw : h = w
  · subst hw
    rw [Function.update_same, DWORD_of_lt hm, adjusted_outside _ _ _ _ hm hF]
  · rw [Function.update_noteq hw]

/-- `set_alpha` leaves the extended styles alone or replaces the one of the
top-level window by an adjusted mask for the layered flag. -/
theorem set_alpha_exstyle_cases (v : Int) (s : Sys) :
    ∃ q : Int, (set_alpha v s).2.desk.exstyle = s.desk.exstyle ∨
      (set_alpha v s).2.desk.exstyle =
        Function.update s.desk.exstyle (get_hwnd s)
          (adjusted (DWORD (s.desk.exstyle (get_hwnd s))) WS_EX_LAYERED q) := by
  unfold set_alpha
  simp only [clamp_code]
  refine ⟨if clamp v ≠ 0xFF then 1 else 0, ?_⟩
  generalize (if clamp v ≠ 0xFF then (1 : Int) else 0) = q
  have h := adjust_exstyle_flags_exstyle (get_hwnd s) WS_EX_LAYERED q s
  split_ifs <;> simp only [display_error_desk, SetLayeredWindowAttributes_exstyle]
  · exact h
  · exact h
  · exact h
  · exact Or.inl trivial

/-- C10: for a 32-bit mask `m`, the mask the mutators write back is `m | f`
when the predicate is 0 and `m & ~f` otherwise, so it agrees with `m` on every
bit outside `f`; the write is the only mutating call they issue.  Hence, when
all masks are 32-bit values, `set_fullscreen_on/off` change no basic-style bit
outside caption, thick frame, maximize and minimize box, `set_window_style_clean`
and `set_window_style_default` change no extended-style bit outside the client
edge, and `set_alpha` changes no extended-style bit outside the layered flag,
on any window, whether the operation succeeds or not. -/
theorem only_flag_group_changes (s : Sys) (m f w : Nat) (p arg : Int) (h i : Nat)
    (hm : m < 4294967296) (hs : Masks32 s) :
    ((p = 0 → f < 4294967296 → adjusted m f p = m ||| f) ∧
      (p ≠ 0 → adjusted m f p = m &&& (4294967295 ^^^ f)) ∧
      (f.testBit i = false → (adjusted m f p).testBit i = m.testBit i)) ∧
    (((adjust_style_flags w f p s).2.log = s.log ∨
        (adjust_style_flags w f p s).2.log = s.log ++
          [Call.SetWindowLongPtr w .GWL_STYLE (adjusted (DWORD (s.desk.style w)) f p)]) ∧
      ((adjust_exstyle_flags w f p s).2.log = s.log ∨
        (adjust_exstyle_flags w f p s).2.log = s.log ++
          [Call.SetWindowLongPtr w .GWL_EXSTYLE
            (adjusted (DWORD (s.desk.exstyle w)) f p)])) ∧
    (FULLSCREEN_FLAGS.testBit i = false →
      ((set_fullscreen_on arg s).2.desk.style h).testBit i = (s.desk.style h).testBit i ∧
      ((set_fullscreen_off arg s).2.desk.style h).testBit i = (s.desk.style h).testBit i) ∧
    (WS_EX_CLIENTEDGE.testBit i = false →
      ((set_window_style_clean arg s).2.desk.exstyle h).testBit i =
        (s.desk.exstyle h).testBit i ∧
      ((set_window_style_default arg s).2.desk.exstyle h).testBit i =
        (s.desk.exstyle h).testBit i) ∧
    (WS_EX_LAYERED.testBit i = false →
      ((set_alpha arg s).2.desk.exstyle h).testBit i = (s.desk.exstyle h).testBit i) := by
  refine ⟨⟨?_, ?_, adjusted_outside m f p i hm⟩, ⟨adjust_style_flags_log w f p s, ?_⟩,
    ?_, ?_, ?_⟩
  · intro hp hf
    unfold adjusted
    rw [if_pos hp]
    exact DWORD_of_lt (@Nat.or_lt_two_pow m f 32 hm hf)
  · intro hp
    unfold adjusted
    rw [if_neg hp]
  · rcases adjust_exstyle_flags_log w f p s with ⟨-, hl⟩ | ⟨-, hl⟩
    · exact Or.inl hl
    · exact Or.inr hl
  · intro hF
    exact ⟨testBit_update_adjusted (set_fullscreen_style_cases 1 arg s) (hs _).1 h i hF,
      testBit_update_adjusted (set_fullscreen_style_cases 0 arg s) (hs _).1 h i hF⟩
  · intro hF
    exact ⟨testBit_update_adjusted (set_window_style_exstyle 1 arg s) (hs _).2 h i hF,
      testBit_update_adjusted (set_window_style_exstyle 0 arg s) (hs _).2 h i hF⟩
  · intro hF
    obtain ⟨q, hq⟩ := set_alpha_exstyle_cases arg s
    exact testBit_update_adjusted hq (hs _).2 h i hF

theorem Masks32_editor : Masks32 (editor 0x14CF0000 0x100 0x200 9 0) := by
  intro h
  simp only [editor, editorDesk]
  constructor <;> split <;> decide

/-- C10 on the sample editor: `WS_VISIBLE` (bit 28) of the parent survives
`set_fullscreen_on`, and bit 8 of its extended style survives `set_alpha`. -/
theorem only_flag_group_changes_witness :
    (0x14CF0000 : Nat) < 4294967296 ∧ Masks32 (editor 0x14CF0000 0x100 0x200 9 0) ∧
    adjusted 0x14CF0000 FULLSCREEN_FLAGS 1 = 0x14CF0000 &&& (4294967295 ^^^ FULLSCREEN_FLAGS) ∧
    ((set_fullscreen_on 0x112233 (editor 0x14CF0000 0x100 0x200 9 0)).2.desk.style 1).testBit 28
      = ((editor 0x14CF0000 0x100 0x200 9 0).desk.style 1).testBit 28 ∧
    ((set_alpha 0x112233 (editor 0x14CF0000 0x100 0x200 9 0)).2.desk.exstyle 1).testBit 8
      = ((editor 0x14CF0000 0x100 0x200 9 0).desk.exstyle 1).testBit 8 :=
  ⟨by decide, Masks32_editor,
    (only_flag_group_changes (editor 0x14CF0000 0x100 0x200 9 0) 0x14CF0000 FULLSCREEN_FLAGS
      1 1 0x112233 1 28 (by decide) Masks32_editor).1.2.1 (by decide),
    ((only_flag_group_changes (editor 0x14CF0000 0x100 0x200 9 0) 0x14CF0000 FULLSCREEN_FLAGS
      1 1 0x112233 1 28 (by decide) Masks32_editor).2.2.1 (by decide)).1,
    (only_flag_group_changes (editor 0x14CF0000 0x100 0x200 9 0) 0x14CF0000 FULLSCREEN_FLAGS
      1 1 0x112233 1 8 (by decide) Masks32_editor).2.2.2.2 (by decide)⟩

/-! ### C5 : the stale error indicator and the client edge -/

theorem SetClassLongPtr_lastError_ne {s : Sys} (w v : Nat) (he : s.lastError ≠ 0) :
    (SetClassLongPtr w v s).2.lastError ≠ 0 := by
  cases hf : fault s .SetClassLongPtr w with
  | none => rw [(SetClassLongPtr_ok v hf).2.1]; exact he
  | some e =>
    have hf2 : fault { s with log := s.log ++ [Call.SetClassLongPtr w v] }
        .SetClassLongPtr w = some e := hf
    have hne : e ≠ 0 := fun h0 => fault_ne_zero s _ w (h0 ▸ hf)
    unfold SetClassLongPtr
    dsimp only
    rw [hf2]
    exact hne

theorem GetWindowLongPtr_lastError_ne {s : Sys} (w : Nat) (i : Index) (he : s.lastError ≠ 0) :
    (GetWindowLongPtr w i s).2.lastError ≠ 0 := by
  cases hf : fault s (.GetWindowLongPtr i) w with
  | none => rw [GetWindowLongPtr_ok hf]; exact he
  | some e =>
    have hne : e ≠ 0 := fun h0 => fault_ne_zero s _ w (h0 ▸ hf)
    rw [GetWindowLongPtr_fail hf]
    exact hne

/-- With a zero mask and a non-zero error indicator `adjust_exstyle_flags`
stops at its read step, whether the read failed or not. -/
theorem adjust_exstyle_flags_zero_mask {s : Sys} {w : Nat} (f : Nat) (p : Int)
    (hz : s.desk.exstyle w = 0) (he : s.lastError ≠ 0) :
    adjust_exstyle_flags w f p s =
      (0, display_error 104 (GetWindowLongPtr w .GWL_EXSTYLE s).2) := by
  rcases adjust_exstyle_flags_cases w f p s with h | ⟨-, hc, -⟩
  · exact h
  · exfalso
    rcases hc with hc | hc
    · apply hc
      rw [hz]
      rfl
    · exact he hc

/-- With a text area whose extended style is 0 and a non-zero error indicator
at entry, `set_window_style` returns 0 and leaves every extended style as it
was; the indicator is still non-zero afterwards. -/
theorem set_window_style_stale {s : Sys} (x c : Int)
    (hz : s.desk.exstyle (get_textarea_hwnd s) = 0) (he : s.lastError ≠ 0) :
    (set_window_style x c s).1 = 0 ∧
    (set_window_style x c s).2.desk.exstyle = s.desk.exstyle ∧
    (set_window_style x c s).2.lastError ≠ 0 := by
  unfold set_window_style force_redraw
  simp only [get_textarea_hwnd_CreateSolidBrush, get_hwnd_SetClassLongPtr,
    get_hwnd_CreateSolidBrush]
  rw [← brushColor]
  have hBe : (CreateSolidBrush (brushColor c) s).2.lastError ≠ 0 := by
    rw [CreateSolidBrush_lastError]; exact he
  have hBx : (CreateSolidBrush (brushColor c) s).2.desk.exstyle = s.desk.exstyle := by
    rw [CreateSolidBrush_desk]
  generalize CreateSolidBrush (brushColor c) s = B at hBe hBx ⊢
  have hCe := SetClassLongPtr_lastError_ne (get_textarea_hwnd s) B.1 hBe
  have hCx : (SetClassLongPtr (get_textarea_hwnd s) B.1 B.2).2.desk.exstyle =
      s.desk.exstyle := by
    rw [SetClassLongPtr_exstyle]; exact hBx
  generalize SetClassLongPtr (get_textarea_hwnd s) B.1 B.2 = C at hCe hCx ⊢
  have hPe := SetClassLongPtr_lastError_ne (get_hwnd s) B.1 hCe
  have hPx : (SetClassLongPtr (get_hwnd s) B.1 C.2).2.desk.exstyle = s.desk.exstyle := by
    rw [SetClassLongPtr_exstyle]; exact hCx
  generalize SetClassLongPtr (get_hwnd s) B.1 C.2 = P at hPe hPx ⊢
  have hPz : P.2.desk.exstyle (get_textarea_hwnd s) = 0 := by rw [hPx]; exact hz
  rw [adjust_exstyle_flags_zero_mask WS_EX_CLIENTEDGE x hPz hPe]
  dsimp only
  rw [if_neg (by decide : ¬ ((0 : Int) ≠ 0))]
  have hGe := GetWindowLongPtr_lastError_ne (get_textarea_hwnd s) .GWL_EXSTYLE hPe
  split_ifs <;>
    simp [hBe, hBx, hCe, hCx, hPe, hPx, hGe]

/-- C5 (what the code does): when the text area's extended style is 0 and the
error indicator holds a non-zero value left by an earlier call,
`set_window_style_clean` followed by `set_window_style_default` both return 0
at the read step of the mutator and the client edge of the text area is clear
afterwards, not set, also when no window-manager call fails. -/
theorem client_edge_stale_error (color : Int) (s : Sys)
    (hz : s.desk.exstyle (get_textarea_hwnd s) = 0) (he : GetLastError s ≠ 0) :
    (set_window_style_clean color s).1 = 0 ∧
    (set_window_style_default color (set_window_style_clean color s).2).1 = 0 ∧
    (set_window_style_default color (set_window_style_clean color s).2).2.desk.exstyle
      (get_textarea_hwnd s) &&& WS_EX_CLIENTEDGE = 0 := by
  obtain ⟨h1, hx1, he1⟩ := set_window_style_stale 1 color hz he
  have hz1 : (set_window_style 1 color s).2.desk.exstyle
      (get_textarea_hwnd (set_window_style 1 color s).2) = 0 := by
    rw [get_textarea_hwnd_set_window_style, hx1]; exact hz
  obtain ⟨h2, hx2, -⟩ := set_window_style_stale 0 color hz1 he1
  refine ⟨h1, h2, ?_⟩
  show (set_window_style 0 color (set_window_style 1 color s).2).2.desk.exstyle
    (get_textarea_hwnd s) &&& WS_EX_CLIENTEDGE = 0
  rw [hx2, hx1, hz]
  rfl

/-- C5 at the failing input: every window-manager call succeeds and both
lookups find their window, the text area has extended style 0 and error 5 is
left over from an earlier call. -/
theorem client_edge_stale_error_witness :
    NoFaults (editor 0x14CF0000 0x100 0 9 5) ∧
    get_textarea_hwnd (editor 0x14CF0000 0x100 0 9 5) ≠ NULL ∧
    (editor 0x14CF0000 0x100 0 9 5).desk.exstyle
      (get_textarea_hwnd (editor 0x14CF0000 0x100 0 9 5)) = 0 ∧
    GetLastError (editor 0x14CF0000 0x100 0 9 5) ≠ 0 ∧
    (set_window_style_clean 0x112233 (editor 0x14CF0000 0x100 0 9 5)).1 = 0 ∧
    (set_window_style_default 0x112233
      (set_window_style_clean 0x112233 (editor 0x14CF0000 0x100 0 9 5)).2).1 = 0 ∧
    (set_window_style_default 0x112233
      (set_window_style_clean 0x112233 (editor 0x14CF0000 0x100 0 9 5)).2).2.desk.exstyle
        (get_textarea_hwnd (editor 0x14CF0000 0x100 0 9 5)) &&& WS_EX_CLIENTEDGE = 0 ∧
    WS_EX_CLIENTEDGE ≠ 0 :=
  ⟨fun _ _ => rfl, by decide, by decide, by decide,
    (client_edge_stale_error 0x112233 (editor 0x14CF0000 0x100 0 9 5)
      (by decide) (by decide)).1,
    (client_edge_stale_error 0x112233 (editor 0x14CF0000 0x100 0 9 5)
      (by decide) (by decide)).2.1,
    (client_edge_stale_error 0x112233 (editor 0x14CF0000 0x100 0 9 5)
      (by decide) (by decide)).2.2,
    by decide⟩

end Wimproved
